import Mathlib

/-!
Verification development for the adaptive cache-lifecycle manager
(`services/ai/cached_content.py`).

The Python module is shallowly embedded below.  Conventions of the embedding:

* Python dicts used as keyed maps (`active_caches`, `cache_metadata`,
  `performance_history`, `invalidation_triggers`) are association lists
  `List (String × β)`; assignment is `dinsert` (replace in place, else
  append, matching dict insertion-order semantics), deletion is `delKey`,
  membership/lookup is `alookup`.
* The backing provider (`genai.caching.CachedContent`) is opaque: a `Handle`
  carries the observable outcomes of the three provider operations used by
  the module — `valid` (whether accessing the handle succeeds, i.e. the
  `_is_cache_valid` probe) and `deleteOk` (whether `Handle.delete()` raises).
  The outcome of a `CachedContent.create` call is an explicit argument of
  type `Except Unit Handle` (`.error` = the provider raised).
* Machine integers are `Nat`/`Int`; Python `int(x * 1.5)`, `int(x * 1.3)`,
  `int(x * 0.8)` on non-negative `x` are embedded as the exact rational
  floors `(x*3)/2`, `(x*13)/10`, `(x*4)/5` in `Nat` (for the magnitudes
  involved the binary-float products never cross an integer boundary, so
  truncation of the float product equals the rational floor).
* The truncated SHA-256 digest used for key derivation is modeled by an
  injective encoding (the identity on the hashed text): every claim below
  depends only on determinism of key derivation, not on digest values.
* Wall-clock timestamps (`created_at`, `queued_at`, record timestamps and
  trigger times) are never read by any of the modeled control paths and are
  omitted from the embedded records.
* Two ghost counters (`builder_calls`, `provider_creates`) instrument the
  state; they count invocations of the content builder
  (`_build_*_cache_content`) and of the provider's `create`, and are written
  exactly where the source performs those calls.
-/

namespace CachedContent

/-! ## Association-list primitives (embedding of Python `dict`) -/

/-- First value stored under key `k`, like `d[k]` / `k in d`. -/
def alookup {β : Type} : List (String × β) → String → Option β
  | [], _ => none
  | p :: l, k => if p.1 = k then some p.2 else alookup l k

/-- Python `d[k] = v`: replace the value in place if the key is present,
otherwise append the new pair (dict insertion order). -/
def dinsert {β : Type} (k : String) (v : β) (l : List (String × β)) :
    List (String × β) :=
  if (alookup l k).isSome then
    l.map (fun p => if p.1 = k then (k, v) else p)
  else
    l ++ [(k, v)]

/-- Python `del d[k]` (no-op when the key is absent, matching the guarded
deletes in the source). -/
def delKey {β : Type} (k : String) : List (String × β) →
    List (String × β)
  | [] => []
  | p :: l => if p.1 = k then delKey k l else p :: delKey k l

/-- Last `n` elements of a list (Python `l[-n:]`). -/
def lastN {α : Type} (n : Nat) (l : List α) : List α :=
  l.drop (l.length - n)

/-! ## Data model -/

/-- Outcome-level view of a backing-provider cache handle
(`genai.caching.CachedContent`).  `valid` is the result of the
`_is_cache_valid` probe (accessing `.name` succeeds); `deleteOk` records
whether `Handle.delete()` succeeds (the source drives both through
exceptions). -/
structure Handle where
  name : String
  valid : Bool
  deleteOk : Bool
  deriving DecidableEq, Repr

/-- Enum `CacheContentType`. -/
inductive CacheContentType where
  | assessment_context
  | business_profile
  | framework_context
  | industry_regulations
  | system_instructions
  deriving DecidableEq, Repr

/-- The `.value` string of each enum member. -/
def CacheContentType.value : CacheContentType → String
  | .assessment_context => "assessment_context"
  | .business_profile => "business_profile"
  | .framework_context => "framework_context"
  | .industry_regulations => "industry_regulations"
  | .system_instructions => "system_instructions"

/-- Dataclass `CacheLifecycleConfig` with the source's defaults
(`ttl_adjustment_factor = 0.2` is the rational `1/5`,
`auto_refresh_threshold = 0.8` is `4/5`). -/
structure CacheLifecycleConfig where
  default_ttl_hours : Nat := 2
  max_ttl_hours : Nat := 24
  min_ttl_minutes : Nat := 30
  auto_refresh_threshold : Rat := 4 / 5
  max_cache_size_mb : Nat := 100
  performance_based_ttl : Bool := true
  cache_warming_enabled : Bool := true
  intelligent_invalidation : Bool := true
  fast_response_threshold_ms : Nat := 200
  slow_response_threshold_ms : Nat := 2000
  ttl_adjustment_factor : Rat := 1 / 5
  deriving DecidableEq, Repr

/-- Business-profile dictionary: the fields read by the module.  A missing
`employee_count` is conflated with the source's `.get("employee_count", 0)`
default. -/
structure BusinessProfile where
  id : Option String := none
  company_name : Option String := none
  industry : Option String := none
  employee_count : Int := 0
  country : Option String := none
  handles_personal_data : Bool := false
  processes_payments : Bool := false
  stores_health_data : Bool := false
  provides_financial_services : Bool := false
  operates_critical_infrastructure : Bool := false
  has_international_operations : Bool := false
  cloud_providers : List String := []
  saas_tools : List String := []
  existing_frameworks : List String := []
  deriving DecidableEq, Repr

/-- Metadata record stored in `cache_metadata` (the `created_at` timestamp is
never read and is omitted).  `regulations` embeds
`metadata.get("regulations", [])`: no create path of the source ever writes
that key, so created entries always carry `[]`. -/
structure CacheMetadata where
  type : String
  ttl_hours : Nat
  framework_id : Option String := none
  business_profile_id : Option String := none
  industry : Option String := none
  industry_context : Option String := none
  size_estimate_mb : Nat := 0
  regulations : List String := []
  deriving DecidableEq, Repr

/-- One record of `performance_history` (timestamp omitted — never read). -/
structure PerfRecord where
  response_time_ms : Nat
  hit : Bool
  ttl_adjustment : Rat := 0
  deriving DecidableEq, Repr

/-- The `context` dict carried by a warming-queue entry; the fields the
module reads, each optional because Python `context["k"]` raises `KeyError`
when the key is missing. -/
structure WarmContext where
  framework_id : Option String := none
  business_profile : Option BusinessProfile := none
  assessment_context : Option String := none
  industry_context : Option String := none
  business_profile_id : Option String := none
  deriving DecidableEq, Repr

/-- Entry of `cache_warming_queue` (`queued_at` omitted — never read). -/
structure WarmingEntry where
  content_type : CacheContentType
  context : WarmContext
  priority : Int
  attempts : Nat := 0
  deriving DecidableEq, Repr

/-- The `metrics` counter dict (sizes and savings as exact integers). -/
structure CacheMetrics where
  cache_hits : Nat := 0
  cache_misses : Nat := 0
  cache_creates : Nat := 0
  cache_refreshes : Nat := 0
  total_cost_savings : Int := 0
  total_size_cached_mb : Int := 0
  deriving DecidableEq, Repr

/-- The mutable state of one `GoogleCachedContentManager` instance, plus the
two ghost invocation counters described in the header comment. -/
structure CacheState where
  config : CacheLifecycleConfig := {}
  use_mock : Bool := false
  active_caches : List (String × Handle) := []
  cache_metadata : List (String × CacheMetadata) := []
  metrics : CacheMetrics := {}
  performance_history : List (String × List PerfRecord) := []
  cache_warming_queue : List WarmingEntry := []
  invalidation_triggers : List (String × Unit) := []
  builder_calls : Nat := 0
  provider_creates : Nat := 0
  deriving DecidableEq, Repr

/-- Fresh manager state (`__init__`). -/
def initState (cfg : CacheLifecycleConfig := {}) (use_mock : Bool := false) :
    CacheState :=
  { config := cfg, use_mock := use_mock }

/-! ## CacheKey codec -/

/-- Model of `hashlib.sha256(s).hexdigest()` truncated to a fixed prefix: an
injective encoding of the hashed text (claims depend only on determinism and
distinctness of the derived keys, not on digest bytes). -/
def digest_trunc (s : String) : String := s

/-- Embeds `_generate_cache_key`.  The `if secondary_key:` truthiness test drops
both `None` and the empty string. -/
def generate_cache_key (content_type : CacheContentType) (identifier : String)
    (secondary_key : Option String := none) : String :=
  let key_parts := [content_type.value, identifier] ++
    (match secondary_key with
     | some s => if s = "" then [] else [s]
     | none => [])
  let combined_key := String.intercalate "|" key_parts
  "gai_cache:" ++ digest_trunc combined_key

/-- Embeds `_get_employee_count_range`. -/
def get_employee_count_range (employee_count : Int) : String :=
  if employee_count < 10 then "micro"
  else if employee_count < 50 then "small"
  else if employee_count < 250 then "medium"
  else if employee_count < 1000 then "large"
  else "enterprise"

/-- Ordered insertion of a string into a list, the helper of the
`sortStrings` model of Python `sorted`. -/
def insertSorted (x : String) : List String → List String
  | [] => [x]
  | y :: ys => if x ≤ y then x :: y :: ys else y :: insertSorted x ys

/-- Insertion sort on strings, embedding Python `sorted` on a string list
(only determinism of the similarity key matters to the claims). -/
def sortStrings : List String → List String
  | [] => []
  | x :: xs => insertSorted x (sortStrings xs)

/-- Canonical text of the similarity-factor dict as serialized by
`json.dumps(..., sort_keys=True)`: the five factors in sorted key order,
rendered as a deterministic flat string (exact JSON punctuation is not
modeled; only injectivity on the factor tuple matters). -/
def similarity_factors_text (bp : BusinessProfile) : String :=
  String.intercalate "|"
    [get_employee_count_range bp.employee_count,
     String.intercalate "," (sortStrings bp.existing_frameworks),
     toString bp.handles_personal_data,
     toString bp.has_international_operations,
     bp.industry.getD ""]

/-- Embeds `_generate_business_profile_cache_key`. -/
def generate_business_profile_cache_key (bp : BusinessProfile) : String :=
  generate_cache_key .business_profile
    (digest_trunc (similarity_factors_text bp))

/-! ## TTL policy engine -/

/-- The `stable_frameworks` literal of `_calculate_assessment_ttl`. -/
def stable_frameworks : List String := ["ISO27001", "SOC2", "PCI-DSS"]

/-- Embeds `_calculate_assessment_ttl`: the stepwise floored multipliers
(`int(base*1.5)`, `int(base*1.3)`, `int(base*0.8)`) followed by the clamp
`max(min_ttl_minutes // 60, min(max_ttl_hours, base))`. -/
def calculate_assessment_ttl (cfg : CacheLifecycleConfig)
    (framework_id : String) (bp : BusinessProfile) : Nat :=
  let base_ttl := cfg.default_ttl_hours
  let base_ttl :=
    if framework_id ∈ stable_frameworks then (base_ttl * 3) / 2 else base_ttl
  let employee_count := bp.employee_count
  let base_ttl :=
    if employee_count > 1000 then (base_ttl * 13) / 10
    else if employee_count < 50 then (base_ttl * 4) / 5
    else base_ttl
  max (cfg.min_ttl_minutes / 60) (min cfg.max_ttl_hours base_ttl)

/-- Embeds `_calculate_business_profile_ttl`. -/
def calculate_business_profile_ttl (cfg : CacheLifecycleConfig)
    (bp : BusinessProfile) : Nat :=
  let base_ttl := cfg.default_ttl_hours
  let employee_count := bp.employee_count
  if employee_count > 500 then min cfg.max_ttl_hours (base_ttl * 2)
  else if employee_count < 25 then max 1 (base_ttl / 2)
  else base_ttl

/-! ## Content builders (pure helpers of the source module) -/

/-- Embeds `_get_framework_type`. -/
def get_framework_type (framework_id : String) : String :=
  if framework_id = "GDPR" then "Data Protection Regulation"
  else if framework_id = "ISO27001" then "Information Security Management"
  else if framework_id = "SOC2" then "Service Organization Control"
  else if framework_id = "HIPAA" then "Healthcare Data Protection"
  else if framework_id = "PCI-DSS" then "Payment Card Security"
  else if framework_id = "SOX" then "Financial Reporting Control"
  else if framework_id = "NIST" then "Cybersecurity Framework"
  else "Compliance Framework"

/-- Embeds `_get_framework_focus`. -/
def get_framework_focus (framework_id : String) : String :=
  if framework_id = "GDPR" then "Personal data protection and privacy rights"
  else if framework_id = "ISO27001" then "Information security management systems"
  else if framework_id = "SOC2" then
    "Security, availability, processing integrity, confidentiality, privacy"
  else if framework_id = "HIPAA" then
    "Protected health information security and privacy"
  else if framework_id = "PCI-DSS" then "Payment card data security"
  else if framework_id = "SOX" then
    "Financial reporting accuracy and internal controls"
  else if framework_id = "NIST" then "Cybersecurity risk management"
  else "Compliance and risk management"

/-- Embeds `_get_framework_regions`. -/
def get_framework_regions (framework_id : String) : String :=
  if framework_id = "GDPR" then "European Union, EEA"
  else if framework_id = "ISO27001" then "Global"
  else if framework_id = "SOC2" then "Global (US-originated)"
  else if framework_id = "HIPAA" then "United States"
  else if framework_id = "PCI-DSS" then "Global"
  else if framework_id = "SOX" then "United States"
  else if framework_id = "NIST" then "United States, Global adoption"
  else "Varies by jurisdiction"

/-- Embeds `_get_framework_key_requirements`. -/
def get_framework_key_requirements (framework_id : String) : String :=
  if framework_id = "GDPR" then
    "Lawful basis, consent, data minimization, security measures, breach notification"
  else if framework_id = "ISO27001" then
    "ISMS implementation, risk assessment, security controls, continuous improvement"
  else if framework_id = "SOC2" then
    "Trust service criteria implementation, controls testing, management assertion"
  else if framework_id = "HIPAA" then
    "Administrative, physical, technical safeguards, risk assessment, workforce training"
  else if framework_id = "PCI-DSS" then
    "Secure network, cardholder data protection, vulnerability management, access control"
  else if framework_id = "SOX" then
    "Internal controls, financial reporting processes, management assessment, auditor attestation"
  else if framework_id = "NIST" then
    "Identify, protect, detect, respond, recover functions"
  else "Risk assessment, control implementation, monitoring"

/-- Embeds `_get_framework_assessment_approach`. -/
def get_framework_assessment_approach (framework_id : String) : String :=
  if framework_id = "GDPR" then
    "Data protection impact assessment, compliance gap analysis"
  else if framework_id = "ISO27001" then
    "Security risk assessment, controls effectiveness review"
  else if framework_id = "SOC2" then
    "Trust service criteria evaluation, controls testing"
  else if framework_id = "HIPAA" then
    "Security risk analysis, safeguards assessment"
  else if framework_id = "PCI-DSS" then
    "Self-assessment questionnaire, vulnerability scanning"
  else if framework_id = "SOX" then
    "Internal controls testing, management assessment"
  else if framework_id = "NIST" then
    "Cybersecurity framework profile development, maturity assessment"
  else "Risk-based assessment and gap analysis"

/-- Embeds `_get_data_processing_profile`. -/
def get_data_processing_profile (bp : BusinessProfile) : String :=
  let profiles :=
    (if bp.handles_personal_data then ["Personal Data"] else []) ++
    (if bp.processes_payments then ["Payment Data"] else []) ++
    (if bp.stores_health_data then ["Health Data"] else []) ++
    (if bp.provides_financial_services then ["Financial Data"] else [])
  if profiles = [] then "Standard Business Data"
  else String.intercalate ", " profiles

/-- Embeds `_get_technology_summary`. -/
def get_technology_summary (bp : BusinessProfile) : String :=
  let tech_components :=
    (if bp.cloud_providers = [] then []
     else ["Cloud: " ++ String.intercalate ", " (bp.cloud_providers.take 3)]) ++
    (if bp.saas_tools = [] then []
     else ["SaaS: " ++ String.intercalate ", " (bp.saas_tools.take 3)])
  if tech_components = [] then "Traditional IT Infrastructure"
  else String.intercalate "; " tech_components

/-- Embeds `_get_compliance_maturity`. -/
def get_compliance_maturity (bp : BusinessProfile) : String :=
  if bp.existing_frameworks.length ≥ 3 then "Advanced (Multiple Frameworks)"
  else if bp.existing_frameworks.length ≥ 1 then
    "Intermediate (" ++ String.intercalate ", " bp.existing_frameworks ++ ")"
  else "Initial (No Existing Frameworks)"

/-- Embeds `_build_assessment_cache_content` (the `assessment_context` argument is
carried as its serialized text; `json.dumps(..., indent=2)` is not
re-rendered). -/
def build_assessment_cache_content (framework_id : String)
    (bp : BusinessProfile) (assessment_context : Option String) :
    List String :=
  let characteristics :=
    (if bp.handles_personal_data then ["handles personal data"] else []) ++
    (if bp.processes_payments then ["processes payments"] else []) ++
    (if bp.stores_health_data then ["stores health data"] else []) ++
    (if bp.provides_financial_services then ["provides financial services"] else []) ++
    (if bp.operates_critical_infrastructure then ["operates critical infrastructure"] else []) ++
    (if bp.has_international_operations then ["has international operations"] else [])
  ["Compliance Framework: " ++ framework_id,
   "Framework Type: " ++ get_framework_type framework_id,
   "Company: " ++ bp.company_name.getD "Unknown",
   "Industry: " ++ bp.industry.getD "Unknown",
   "Employee Count: " ++ toString bp.employee_count,
   "Country: " ++ bp.country.getD "Unknown"] ++
  (if characteristics = [] then []
   else ["Business Characteristics: " ++ String.intercalate ", " characteristics]) ++
  (if bp.cloud_providers = [] then []
   else ["Cloud Providers: " ++ String.intercalate ", " bp.cloud_providers]) ++
  (if bp.saas_tools = [] then []
   else ["SaaS Tools: " ++ String.intercalate ", " bp.saas_tools]) ++
  (if bp.existing_frameworks = [] then []
   else ["Existing Frameworks: " ++ String.intercalate ", " bp.existing_frameworks]) ++
  (match assessment_context with
   | some ctx => ["Assessment Context: " ++ ctx]
   | none => [])

/-- Embeds `_build_business_profile_cache_content`. -/
def build_business_profile_cache_content (bp : BusinessProfile) :
    List String :=
  ["Business Profile Analysis:",
   "Organization: " ++ bp.company_name.getD "Unknown Company",
   "Industry Sector: " ++ bp.industry.getD "Unknown Industry",
   "Organization Size: " ++ get_employee_count_range bp.employee_count ++
     " (" ++ toString bp.employee_count ++ " employees)",
   "Geographic Scope: " ++ bp.country.getD "Unknown" ++ " " ++
     (if bp.has_international_operations then "(International Operations)"
      else "(Domestic Only)"),
   "Data Processing Profile: " ++ get_data_processing_profile bp,
   "Technology Stack: " ++ get_technology_summary bp,
   "Current Compliance Maturity: " ++ get_compliance_maturity bp]

/-- Embeds `_build_framework_cache_content`. -/
def build_framework_cache_content (framework_id : String)
    (industry_context : Option String) : List String :=
  ["Compliance Framework: " ++ framework_id,
   "Framework Category: " ++ get_framework_type framework_id,
   "Primary Focus: " ++ get_framework_focus framework_id,
   "Applicable Regions: " ++ get_framework_regions framework_id,
   "Industry Applicability: " ++ industry_context.getD "General",
   "Key Requirements: " ++ get_framework_key_requirements framework_id,
   "Assessment Approach: " ++ get_framework_assessment_approach framework_id]

/-- Model of `len(json.dumps(cache_content)) / (1024*1024)`: a deterministic
size estimate (total character count of the parts; the JSON overhead and MB
scaling are not modeled — no claim depends on the numeric value). -/
def size_estimate (content : List String) : Nat :=
  (content.map String.length).sum

/-! ## Cache store / lifecycle controller -/

/-- Embeds `_is_cache_valid`: probe the handle; the provider raises iff the cached
content is expired, and the result is the handle's `valid` flag. -/
def is_cache_valid (h : Handle) : Bool := h.valid

/-- Metric bumps used throughout. -/
def recordHit (s : CacheState) : CacheState :=
  { s with metrics := { s.metrics with cache_hits := s.metrics.cache_hits + 1 } }

/-- Increment of the miss counter. -/
def recordMiss (s : CacheState) : CacheState :=
  { s with metrics := { s.metrics with cache_misses := s.metrics.cache_misses + 1 } }

/-- Embeds `_remove_cache` / `_remove_cache_sync`: delete the backing handle and, if
that call succeeds, drop the entry from both maps and subtract its size
estimate; when `Handle.delete()` raises, the exception is caught and the
local entry is left in place. -/
def remove_cache (s : CacheState) (cache_key : String) : CacheState :=
  match alookup s.active_caches cache_key with
  | none => s
  | some cached_content =>
    if cached_content.deleteOk then
      let size : Int :=
        match alookup s.cache_metadata cache_key with
        | some m => (m.size_estimate_mb : Int)
        | none => 0
      { s with
        active_caches := delKey cache_key s.active_caches,
        cache_metadata := delKey cache_key s.cache_metadata,
        metrics := { s.metrics with
          total_size_cached_mb := s.metrics.total_size_cached_mb - size } }
    else s

/-- The shared tail of the three `create_*_cache` methods after the
existing-entry check: invoke the content builder, call the provider's
`create` (outcome `env`), and on success store the handle and its metadata;
a provider exception is caught, counted as a miss, and surfaced as `None`.
The two ghost counters are bumped exactly at the builder call and the
provider call. -/
def createNew (env : Except Unit Handle) (s : CacheState) (cache_key : String)
    (cache_content : List String) (meta : CacheMetadata) :
    CacheState × Option Handle :=
  let s := { s with builder_calls := s.builder_calls + 1 }
  let s := { s with provider_creates := s.provider_creates + 1 }
  match env with
  | .error _ => (recordMiss s, none)
  | .ok cached_content =>
    let s :=
      { s with
        active_caches := dinsert cache_key cached_content s.active_caches,
        cache_metadata := dinsert cache_key meta s.cache_metadata,
        metrics := { s.metrics with
          cache_creates := s.metrics.cache_creates + 1,
          total_size_cached_mb :=
            s.metrics.total_size_cached_mb + (meta.size_estimate_mb : Int) } }
    (s, some cached_content)

/-- Common shape of the three `create_*_cache` bodies: return a live valid
entry as a hit; remove an invalid one; otherwise build and create. -/
def getOrCreateWith (env : Except Unit Handle) (s : CacheState)
    (cache_key : String) (cache_content : List String) (meta : CacheMetadata) :
    CacheState × Option Handle :=
  match alookup s.active_caches cache_key with
  | some existing_cache =>
    if is_cache_valid existing_cache then
      (recordHit s, some existing_cache)
    else
      createNew env (remove_cache s cache_key) cache_key cache_content meta
  | none => createNew env s cache_key cache_content meta

/-- Embeds `create_assessment_cache`.  In test mode (`use_mock`) a `MagicMock`
handle named `mock-cache-{framework_id}` is returned and only the creates
counter is bumped; otherwise the generic get-or-create flow runs with the
assessment key, content, TTL and metadata. -/
def create_assessment_cache (env : Except Unit Handle) (s : CacheState)
    (framework_id : String) (business_profile : BusinessProfile)
    (assessment_context : Option String := none) :
    CacheState × Option Handle :=
  if s.use_mock then
    ({ s with metrics :=
        { s.metrics with cache_creates := s.metrics.cache_creates + 1 } },
     some { name := "mock-cache-" ++ framework_id, valid := true,
            deleteOk := true })
  else
    let cache_key := generate_cache_key .assessment_context framework_id
      (some (business_profile.id.getD "unknown"))
    let cache_content :=
      build_assessment_cache_content framework_id business_profile
        assessment_context
    let ttl_hours := calculate_assessment_ttl s.config framework_id
      business_profile
    getOrCreateWith env s cache_key cache_content
      { type := CacheContentType.assessment_context.value,
        ttl_hours := ttl_hours,
        framework_id := some framework_id,
        business_profile_id := business_profile.id,
        size_estimate_mb := size_estimate cache_content }

/-- Embeds `create_business_profile_cache` (no mock branch in the source). -/
def create_business_profile_cache (env : Except Unit Handle) (s : CacheState)
    (business_profile : BusinessProfile) : CacheState × Option Handle :=
  let cache_key := generate_business_profile_cache_key business_profile
  let cache_content := build_business_profile_cache_content business_profile
  let ttl_hours := calculate_business_profile_ttl s.config business_profile
  getOrCreateWith env s cache_key cache_content
    { type := CacheContentType.business_profile.value,
      ttl_hours := ttl_hours,
      business_profile_id := business_profile.id,
      industry := business_profile.industry,
      size_estimate_mb := size_estimate cache_content }

/-- Embeds `create_framework_cache` (fixed 12-hour TTL; `industry_context or
"general"` treats `None` and `""` as absent). -/
def create_framework_cache (env : Except Unit Handle) (s : CacheState)
    (framework_id : String) (industry_context : Option String := none) :
    CacheState × Option Handle :=
  let secondary :=
    match industry_context with
    | some t => if t = "" then "general" else t
    | none => "general"
  let cache_key := generate_cache_key .framework_context framework_id
    (some secondary)
  let cache_content := build_framework_cache_content framework_id
    industry_context
  getOrCreateWith env s cache_key cache_content
    { type := CacheContentType.framework_context.value,
      ttl_hours := 12,
      framework_id := some framework_id,
      industry_context := industry_context,
      size_estimate_mb := size_estimate cache_content }

/-- Embeds `get_cached_content`: pure lookup; an expired entry is removed
synchronously and the call falls through to a miss. -/
def get_cached_content (s : CacheState) (content_type : CacheContentType)
    (identifier : String) (secondary_key : Option String := none) :
    CacheState × Option Handle :=
  let cache_key := generate_cache_key content_type identifier secondary_key
  match alookup s.active_caches cache_key with
  | some cached_content =>
    if is_cache_valid cached_content then
      (recordHit s, some cached_content)
    else
      (recordMiss (remove_cache s cache_key), none)
  | none => (recordMiss s, none)

/-- Embeds `refresh_cache`: unknown keys report `False`; for a known metadata record
whose `type` names a member of the enum the refresh counter is bumped and
`True` returned (the simplified source rebuilds nothing and touches neither
map); a `type` outside the enum raises `ValueError` inside the `try`, which
is caught and reported as `False`. -/
def refresh_cache (s : CacheState) (cache_key : String) :
    CacheState × Bool :=
  match alookup s.cache_metadata cache_key with
  | none => (s, false)
  | some metadata =>
    if metadata.type ∈
        [CacheContentType.assessment_context.value,
         CacheContentType.business_profile.value,
         CacheContentType.framework_context.value,
         CacheContentType.industry_regulations.value,
         CacheContentType.system_instructions.value] then
      ({ s with metrics :=
          { s.metrics with cache_refreshes := s.metrics.cache_refreshes + 1 } },
       true)
    else (s, false)

/-- Embeds `cleanup_expired_caches`: snapshot the keys of every entry whose
validity probe fails, remove each via `_remove_cache`, and return the number
of snapshot keys (the counter is bumped per key whether or not the removal
succeeded). -/
def cleanup_expired_caches (s : CacheState) : CacheState × Nat :=
  let expired_keys :=
    (s.active_caches.filter (fun p => !(is_cache_valid p.2))).map Prod.fst
  (expired_keys.foldl (fun t k => remove_cache t k) s, expired_keys.length)

/-! ## Performance recorder and TTL adjustment -/

/-- Mean response time of a record list, as the exact rational
`sum(r["response_time_ms"]) / len(...)`. -/
def mean_response_time (records : List PerfRecord) : Rat :=
  ((records.map (fun r => (r.response_time_ms : Rat))).sum) /
    (records.length : Rat)

/-- Embeds `_calculate_ttl_adjustment`: with the optimization enabled, look at the
last 10 records of the key's history; fewer than 3 → `0`; mean below the
fast threshold → `+factor`; mean above the slow threshold → `-factor`;
otherwise `0`.  (The unused `response_time_ms` parameter of the source is
dropped.) -/
def calculate_ttl_adjustment (cfg : CacheLifecycleConfig)
    (history : List PerfRecord) : Rat :=
  if !cfg.performance_based_ttl then 0
  else
    let recent_records := lastN 10 history
    if recent_records.length < 3 then 0
    else
      let avg_response_time := mean_response_time recent_records
      if avg_response_time < (cfg.fast_response_threshold_ms : Rat) then
        cfg.ttl_adjustment_factor
      else if avg_response_time > (cfg.slow_response_threshold_ms : Rat) then
        -cfg.ttl_adjustment_factor
      else 0

/-- Embeds `record_cache_performance`: append the new record, keep only the last 50
records, compute the adjustment over the updated history and write it into
the just-appended record (the source mutates the dict aliased into the
list). -/
def record_cache_performance (s : CacheState) (cache_key : String)
    (response_time_ms : Nat) (hit : Bool := true) : CacheState :=
  if !s.config.performance_based_ttl then s
  else
    let performance_record : PerfRecord :=
      { response_time_ms := response_time_ms, hit := hit, ttl_adjustment := 0 }
    let history := (alookup s.performance_history cache_key).getD []
    let history := history ++ [performance_record]
    let history := if history.length > 50 then lastN 50 history else history
    let ttl_adjustment := calculate_ttl_adjustment s.config history
    let history :=
      history.dropLast ++
        [{ performance_record with ttl_adjustment := ttl_adjustment }]
    { s with performance_history :=
        dinsert cache_key history s.performance_history }

/-! ## Warming scheduler -/

/-- The warming-queue record built by `add_to_warming_queue`. -/
def mkWarmingEntry (content_type : CacheContentType) (context : WarmContext)
    (priority : Int) : WarmingEntry :=
  { content_type := content_type, context := context, priority := priority,
    attempts := 0 }

/-- The insertion loop of `add_to_warming_queue`: place the new entry
immediately before the first existing entry with strictly greater priority
number, appending when there is none (equal priorities keep arrival
order). -/
def insert_by_priority (queue : List WarmingEntry) (e : WarmingEntry) :
    List WarmingEntry :=
  match queue with
  | [] => [e]
  | entry :: rest =>
    if e.priority < entry.priority then e :: entry :: rest
    else entry :: insert_by_priority rest e

/-- Embeds `add_to_warming_queue`: stable priority insert followed by the
100-entry cap (`queue[:100]`, keeping the front of the queue). -/
def add_to_warming_queue (s : CacheState) (content_type : CacheContentType)
    (context : WarmContext) (priority : Int := 5) : CacheState :=
  if !s.config.cache_warming_enabled then s
  else
    let warming_entry := mkWarmingEntry content_type context priority
    let queue := insert_by_priority s.cache_warming_queue warming_entry
    let queue := if queue.length > 100 then queue.take 100 else queue
    { s with cache_warming_queue := queue }

/-- Embeds `_should_warm_cache`: skip anything already live; warm priority ≤ 2
immediately; otherwise require ≥ 3 recorded samples and a hit rate above
30% over the last 10. -/
def should_warm_cache (s : CacheState) (entry : WarmingEntry) : Bool :=
  let context := entry.context
  let cache_key := generate_cache_key entry.content_type
    (context.framework_id.getD "")
    (some (context.business_profile_id.getD ""))
  if (alookup s.active_caches cache_key).isSome then false
  else if entry.priority ≤ 2 then true
  else
    let recent_history := (alookup s.performance_history cache_key).getD []
    if recent_history.length ≥ 3 then
      let recent_hits := (lastN 10 recent_history).filter (fun r => r.hit)
      let hit_rate : Rat :=
        (recent_hits.length : Rat) / (min recent_history.length 10 : Rat)
      decide (hit_rate > 3 / 10)
    else false

/-- Embeds `_warm_cache_entry`: dispatch on the content type and run the matching
create; a missing required `context` key raises `KeyError` before the create
call (`.error`), leaving the state unchanged.  Content types without a
branch complete without doing anything. -/
def warm_cache_entry (env : Except Unit Handle) (s : CacheState)
    (entry : WarmingEntry) : Except Unit CacheState :=
  let context := entry.context
  match entry.content_type with
  | .assessment_context =>
    match context.framework_id, context.business_profile with
    | some fw, some bp =>
      .ok (create_assessment_cache env s fw bp context.assessment_context).1
    | _, _ => .error ()
  | .business_profile =>
    match context.business_profile with
    | some bp => .ok (create_business_profile_cache env s bp).1
    | none => .error ()
  | .framework_context =>
    match context.framework_id with
    | some fw =>
      .ok (create_framework_cache env s fw
        (some (context.industry_context.getD "General"))).1
    | none => .error ()
  | _ => .ok s

/-- Loop body of `process_warming_queue` over the first `max_items` entries:
returns the final state, the processed count and the surviving (possibly
attempts-bumped) entries of the batch, with `envs i` the provider outcome
available to the `i`-th batch item. -/
def process_batch (envs : Nat → Except Unit Handle) (i : Nat)
    (s : CacheState) : List WarmingEntry →
    CacheState × Nat × List WarmingEntry
  | [] => (s, 0, [])
  | entry :: rest =>
    let step : CacheState × Nat × List WarmingEntry :=
      if should_warm_cache s entry then
        match warm_cache_entry (envs i) s entry with
        | .ok s' => (s', 1, [])
        | .error _ =>
          let entry' := { entry with attempts := entry.attempts + 1 }
          if entry'.attempts ≥ 3 then (s, 0, []) else (s, 0, [entry'])
      else (s, 0, [])
    let recRest := process_batch envs (i + 1) step.1 rest
    (recRest.1, step.2.1 + recRest.2.1, step.2.2 ++ recRest.2.2)

/-- Embeds `process_warming_queue`: no-op when warming is disabled or the queue is
empty; otherwise process the first `max_items` entries (successfully
processed or skipped entries are removed; failures bump `attempts` and are
dropped after 3 failures) and return the processed count. -/
def process_warming_queue (envs : Nat → Except Unit Handle) (s : CacheState)
    (max_items : Nat := 5) : CacheState × Nat :=
  if !s.config.cache_warming_enabled ∨ s.cache_warming_queue = [] then (s, 0)
  else
    let batch := s.cache_warming_queue.take max_items
    let res := process_batch envs 0 s batch
    ({ res.1 with cache_warming_queue :=
        res.2.2 ++ s.cache_warming_queue.drop max_items }, res.2.1)

/-! ## Invalidation bus -/

/-- Embeds `_invalidate_cache_keys`: delete each named key that is still live; a
failing `Handle.delete()` is caught per entry (the local entry then stays)
and the batch continues. -/
def invalidate_cache_keys (s : CacheState) (cache_keys : List String) :
    CacheState :=
  cache_keys.foldl
    (fun t cache_key =>
      match alookup t.active_caches cache_key with
      | none => t
      | some cached_content =>
        if cached_content.deleteOk then
          { t with
            active_caches := delKey cache_key t.active_caches,
            cache_metadata := delKey cache_key t.cache_metadata }
        else t)
    s

/-- Embeds `_invalidate_business_profile_caches`. -/
def invalidate_business_profile_caches (s : CacheState)
    (business_profile_id : String) : CacheState :=
  invalidate_cache_keys s
    ((s.cache_metadata.filter
        (fun p => p.2.business_profile_id = some business_profile_id)).map
      Prod.fst)

/-- Embeds `_invalidate_framework_caches`. -/
def invalidate_framework_caches (s : CacheState) (framework_id : String) :
    CacheState :=
  invalidate_cache_keys s
    ((s.cache_metadata.filter
        (fun p => p.2.framework_id = some framework_id)).map Prod.fst)

/-- Embeds `_invalidate_assessment_caches`. -/
def invalidate_assessment_caches (s : CacheState) (framework_id : String)
    (business_profile_id : String) : CacheState :=
  invalidate_cache_keys s
    ((s.cache_metadata.filter
        (fun p =>
          p.2.framework_id = some framework_id ∧
          p.2.business_profile_id = some business_profile_id ∧
          p.2.type = CacheContentType.assessment_context.value)).map
      Prod.fst)

/-- Embeds `_invalidate_regulatory_caches`: matches on
`regulation_id in metadata.get("regulations", [])`. -/
def invalidate_regulatory_caches (s : CacheState) (regulation_id : String) :
    CacheState :=
  invalidate_cache_keys s
    ((s.cache_metadata.filter
        (fun p => regulation_id ∈ p.2.regulations)).map Prod.fst)

/-- The context dict handed to `trigger_intelligent_invalidation`; each
field optional because the dispatch reads `context["..."]`, which raises
`KeyError` when absent. -/
structure TriggerContext where
  business_profile_id : Option String := none
  framework_id : Option String := none
  regulation_id : Option String := none
  deriving DecidableEq, Repr

/-- Embeds `trigger_intelligent_invalidation`: a no-op when the flag is off;
otherwise the trigger log is stamped first and the matching rule runs.  A
missing required context key raises after the stamp, before any deletion
(so the maps are untouched in that case); an unrecognized trigger type just
logs. -/
def trigger_intelligent_invalidation (s : CacheState) (trigger_type : String)
    (context : TriggerContext) : CacheState :=
  if !s.config.intelligent_invalidation then s
  else
    let invalidation_key :=
      trigger_type ++ ":" ++ context.business_profile_id.getD "global"
    let s := { s with
      invalidation_triggers :=
        dinsert invalidation_key Unit.unit s.invalidation_triggers }
    if trigger_type = "business_profile_update" then
      match context.business_profile_id with
      | some x => invalidate_business_profile_caches s x
      | none => s
    else if trigger_type = "framework_update" then
      match context.framework_id with
      | some fw => invalidate_framework_caches s fw
      | none => s
    else if trigger_type = "assessment_completion" then
      match context.framework_id, context.business_profile_id with
      | some fw, some x => invalidate_assessment_caches s fw x
      | _, _ => s
    else if trigger_type = "regulatory_change" then
      match context.regulation_id with
      | some r => invalidate_regulatory_caches s r
      | none => s
    else s

/-! ## Claim-level predicates and concrete fixtures -/

/-- One step of `_invalidate_cache_keys` (named for the proofs below). -/
def invalidate_step (t : CacheState) (cache_key : String) : CacheState :=
  match alookup t.active_caches cache_key with
  | none => t
  | some cached_content =>
    if cached_content.deleteOk then
      { t with
        active_caches := delKey cache_key t.active_caches,
        cache_metadata := delKey cache_key t.cache_metadata }
    else t

/-- Post-state relation of two successive identical create calls: the second
call returns the first call's handle, records a hit, invokes neither the
content builder nor the provider's create again, and leaves both maps
untouched; at most one build happens in total. -/
def create_twice_once
    (call : Except Unit Handle → CacheState → CacheState × Option Handle)
    (env1 env2 : Except Unit Handle) (s : CacheState) : Prop :=
  ((call env2 (call env1 s).1).2 = (call env1 s).2) ∧
  ((call env1 s).2.isSome = true) ∧
  ((call env1 s).1.builder_calls ≤ s.builder_calls + 1) ∧
  ((call env2 (call env1 s).1).1.builder_calls =
    (call env1 s).1.builder_calls) ∧
  ((call env2 (call env1 s).1).1.provider_creates =
    (call env1 s).1.provider_creates) ∧
  ((call env2 (call env1 s).1).1.metrics.cache_hits =
    (call env1 s).1.metrics.cache_hits + 1) ∧
  ((call env2 (call env1 s).1).1.active_caches =
    (call env1 s).1.active_caches) ∧
  ((call env2 (call env1 s).1).1.cache_metadata =
    (call env1 s).1.cache_metadata)

/-- Validity of a lifecycle configuration for the bounds claim: a positive
default TTL that respects the configured bracket
(`minTTLMinutes/60 ≤ defaultTTLHours ≤ maxTTLHours`). -/
def ValidConfig (cfg : CacheLifecycleConfig) : Prop :=
  1 ≤ cfg.default_ttl_hours ∧
  cfg.default_ttl_hours ≤ cfg.max_ttl_hours ∧
  cfg.min_ttl_minutes / 60 ≤ cfg.default_ttl_hours

/-- A valid configuration whose minimum TTL is two hours: the clamp of the
business-profile TTL computation never consults `min_ttl_minutes`, so this
configuration refutes the claimed lower bound. -/
def cfgMinTwoHours : CacheLifecycleConfig :=
  { default_ttl_hours := 2, max_ttl_hours := 24, min_ttl_minutes := 120 }

/-- Whether the metadata record stored under key `k` (if any) correlates the
entry with business profile `X` — the match predicate of
`_invalidate_business_profile_caches`. -/
def metadata_matches_profile (s : CacheState) (k X : String) : Bool :=
  match alookup s.cache_metadata k with
  | some m => decide (m.business_profile_id = some X)
  | none => false

/-- Whether the metadata record stored under key `k` (if any) lists
regulation `R` — the match predicate of `_invalidate_regulatory_caches`. -/
def metadata_mentions_regulation (s : CacheState) (k R : String) : Bool :=
  match alookup s.cache_metadata k with
  | some m => decide (R ∈ m.regulations)
  | none => false

/-- The coherence invariant: a key holds a live handle iff it holds a
metadata record. -/
def SyncedMaps (s : CacheState) : Prop :=
  ∀ k, (alookup s.active_caches k).isSome =
    (alookup s.cache_metadata k).isSome

/-- Five fast samples (100 ms each). -/
def fastHistory : List PerfRecord :=
  List.replicate 5 { response_time_ms := 100, hit := true }

/-- The warming context used by the concrete queue example. -/
def wctx (t : String) : WarmContext := { framework_id := some t }

/-- Enqueue priorities 5 ("a"), 1 ("b"), 5 ("c"), 3 ("d") in that order into
an empty queue. -/
def queueDemo : CacheState :=
  add_to_warming_queue
    (add_to_warming_queue
      (add_to_warming_queue
        (add_to_warming_queue initState .assessment_context (wctx "a") 5)
        .assessment_context (wctx "b") 1)
      .assessment_context (wctx "c") 5)
    .assessment_context (wctx "d") 3

/-- A live, deletable handle used by concrete scenarios. -/
def hGood : Handle := { name := "handle-1", valid := true, deleteOk := true }

/-- A concrete business profile used by concrete scenarios. -/
def bpDemo : BusinessProfile :=
  { id := some "bp1", company_name := some "Acme",
    industry := some "tech", employee_count := 100 }

/-- The assessment cache key derived for framework `GDPR` and profile id
`bp1`. -/
def keyDemo : String :=
  generate_cache_key .assessment_context "GDPR" (some "bp1")

/-- An expired handle whose provider delete also fails. -/
def hExpiredBad : Handle :=
  { name := "handle-3", valid := false, deleteOk := false }

/-- An expired handle whose provider delete succeeds. -/
def hExpiredOk : Handle :=
  { name := "handle-4", valid := false, deleteOk := true }

/-- A valid handle whose provider delete fails. -/
def hBadDel : Handle :=
  { name := "handle-2", valid := true, deleteOk := false }

/-- State holding one expired entry whose backing delete raises. -/
def sBadClean : CacheState :=
  (create_assessment_cache (Except.ok hExpiredBad) initState "GDPR" bpDemo
    none).1

/-- State holding one expired entry whose backing delete succeeds. -/
def sExpOk : CacheState :=
  (create_assessment_cache (Except.ok hExpiredOk) initState "GDPR" bpDemo
    none).1

/-- State with one live entry (profile `bp1`) whose delete raises. -/
def sBadDel : CacheState :=
  (create_assessment_cache (Except.ok hBadDel) initState "GDPR" bpDemo
    none).1

/-- State with one live, deletable entry for profile `bp1`. -/
def sOne : CacheState :=
  (create_assessment_cache (Except.ok hGood) initState "GDPR" bpDemo none).1

/-! ## Association-list lemmas -/

theorem alookup_nil {β : Type} (k : String) :
    alookup ([] : List (String × β)) k = none := rfl

theorem alookup_cons {β : Type} (p : String × β) (l : List (String × β))
    (k : String) :
    alookup (p :: l) k = if p.1 = k then some p.2 else alookup l k := rfl

theorem alookup_append {β : Type} (l₁ l₂ : List (String × β)) (k : String) :
    alookup (l₁ ++ l₂) k =
      ((alookup l₁ k).or (alookup l₂ k)) := by
  induction l₁ with
  | nil => simp [alookup]
  | cons p l ih =>
    simp only [List.cons_append, alookup_cons]
    by_cases h : p.1 = k <;> simp [h, ih]

theorem alookup_eq_none_iff {β : Type} (l : List (String × β)) (k : String) :
    alookup l k = none ↔ ∀ p ∈ l, p.1 ≠ k := by
  induction l with
  | nil => simp [alookup]
  | cons p l ih =>
    simp only [alookup_cons]
    by_cases h : p.1 = k <;> simp [h, ih]

theorem mem_of_alookup_eq_some {β : Type} {l : List (String × β)}
    {k : String} {v : β} (h : alookup l k = some v) : (k, v) ∈ l := by
  induction l with
  | nil => simp [alookup] at h
  | cons p l ih =>
    rw [alookup_cons] at h
    by_cases hp : p.1 = k
    · rw [if_pos hp] at h
      obtain ⟨a, b⟩ := p
      obtain rfl : a = k := hp
      obtain rfl : b = v := by injection h
      exact List.mem_cons_self _ _
    · rw [if_neg hp] at h
      exact List.mem_cons_of_mem _ (ih h)

theorem alookup_map_replace_eq {β : Type} {l : List (String × β)}
    {k : String} (v : β) (hp : (alookup l k).isSome = true) :
    alookup (l.map (fun p => if p.1 = k then (k, v) else p)) k = some v := by
  induction l with
  | nil => simp [alookup] at hp
  | cons p l ih =>
    rw [alookup_cons] at hp
    by_cases h1 : p.1 = k
    · simp [h1, alookup_cons]
    · rw [if_neg h1] at hp
      simp only [List.map_cons, if_neg h1, alookup_cons, if_neg h1]
      exact ih hp

theorem alookup_map_replace_ne {β : Type} (l : List (String × β))
    {k k' : String} (v : β) (hne : ¬ k = k') :
    alookup (l.map (fun p => if p.1 = k then (k, v) else p)) k' =
      alookup l k' := by
  induction l with
  | nil => simp
  | cons p l ih =>
    by_cases h1 : p.1 = k
    · have h2 : ¬ p.1 = k' := by rw [h1]; exact hne
      simp only [List.map_cons, if_pos h1, alookup_cons, if_neg hne,
        if_neg h2]
      exact ih
    · simp only [List.map_cons, if_neg h1, alookup_cons]
      by_cases h2 : p.1 = k' <;> simp [h2, ih]

theorem alookup_dinsert {β : Type} (l : List (String × β)) (k k' : String)
    (v : β) :
    alookup (dinsert k v l) k' = if k = k' then some v else alookup l k' := by
  rcases h0 : alookup l k with _ | v0
  · have hn : (alookup l k).isSome = false := by rw [h0]; rfl
    simp only [dinsert, hn, Bool.false_eq_true, if_false]
    rw [alookup_append]
    by_cases h2 : k = k'
    · subst h2
      simp [h0, alookup]
    · rcases h3 : alookup l k' with _ | v'
      · simp [alookup, h2]
      · simp [alookup, h2]
  · have hs : (alookup l k).isSome = true := by rw [h0]; rfl
    simp only [dinsert, hs, if_pos rfl]
    by_cases h2 : k = k'
    · subst h2
      rw [if_pos rfl]
      exact alookup_map_replace_eq v hs
    · rw [if_neg h2]
      exact alookup_map_replace_ne l v h2

theorem alookup_delKey {β : Type} (l : List (String × β)) (k k' : String) :
    alookup (delKey k l) k' = if k = k' then none else alookup l k' := by
  induction l with
  | nil => simp [delKey, alookup]
  | cons p l ih =>
    by_cases h1 : p.1 = k
    · rw [delKey, if_pos h1, ih, alookup_cons]
      by_cases h2 : k = k'
      · simp [h2]
      · have h3 : ¬ p.1 = k' := by rw [h1]; exact h2
        simp [h2, h3]
    · rw [delKey, if_neg h1, alookup_cons, ih, alookup_cons]
      by_cases h2 : k = k'
      · have h3 : ¬ p.1 = k' := by rw [← h2]; exact h1
        simp [h2, h3]
      · simp [h2]

theorem delKey_eq_filter {β : Type} (k : String) (l : List (String × β)) :
    delKey k l = l.filter (fun p => !(decide (p.1 = k))) := by
  induction l with
  | nil => rfl
  | cons p l ih =>
    rw [delKey, List.filter_cons]
    by_cases h1 : p.1 = k <;> simp [h1, ih]

theorem delKey_of_alookup_eq_none {β : Type} {l : List (String × β)}
    {k : String} (h : alookup l k = none) : delKey k l = l := by
  rw [alookup_eq_none_iff] at h
  rw [delKey_eq_filter]
  exact List.filter_eq_self.mpr (fun p hp => by simpa using h p hp)

/-! ## Claim C3 — concrete assessment-TTL values -/

/-- C3: with `defaultTTLHours=2, maxTTLHours=24, minTTLMinutes=30` and the
stable set `{ISO27001, SOC2, PCI-DSS}`, the assessment TTL is exactly 3
hours for framework `ISO27001` with 1500 employees (2·1.5=3, then 3·1.3
floored to 3, clamp leaves 3) and exactly 1 hour for framework `GDPR` with
10 employees (2·0.8 floored to 1), the multipliers being floored at each
step before the final clamp. -/
theorem assessment_ttl_examples :
    calculate_assessment_ttl
      { default_ttl_hours := 2, max_ttl_hours := 24, min_ttl_minutes := 30 }
      "ISO27001" { employee_count := 1500 } = 3 ∧
    calculate_assessment_ttl
      { default_ttl_hours := 2, max_ttl_hours := 24, min_ttl_minutes := 30 }
      "GDPR" { employee_count := 10 } = 1 := by
  constructor <;> rfl

/-! ## Claim C2 — TTL bounds -/

/-- C2 counterexample: for the valid configuration with
`minTTLMinutes = 120` (2 hours) and `defaultTTLHours = 2`, the
business-profile TTL for a 10-employee profile is `max(1, 2/2) = 1`, which
is strictly below `minTTLMinutes/60 = 2` — the claimed interval
`[minTTLMinutes/60, maxTTLHours]` does not hold for the business-profile
computation. -/
theorem ttl_bounds_counterexample :
    ValidConfig cfgMinTwoHours ∧
    calculate_business_profile_ttl cfgMinTwoHours { employee_count := 10 } <
      cfgMinTwoHours.min_ttl_minutes / 60 :=
  ⟨⟨by decide, by decide, by decide⟩, by decide⟩

/-- C2 amended: for every valid configuration the assessment TTL lies in
`[minTTLMinutes/60, maxTTLHours]`; the business-profile TTL lies in
`[1, maxTTLHours]` but not necessarily above `minTTLMinutes/60`, because
`_calculate_business_profile_ttl` never reads `min_ttl_minutes` (its small-
organization branch clamps at 1 hour instead). -/
theorem ttl_bounds_amended (cfg : CacheLifecycleConfig)
    (framework_id : String) (bp : BusinessProfile) (h : ValidConfig cfg) :
    (cfg.min_ttl_minutes / 60 ≤ calculate_assessment_ttl cfg framework_id bp ∧
     calculate_assessment_ttl cfg framework_id bp ≤ cfg.max_ttl_hours) ∧
    (1 ≤ calculate_business_profile_ttl cfg bp ∧
     calculate_business_profile_ttl cfg bp ≤ cfg.max_ttl_hours) := by
  obtain ⟨h1, h2, h3⟩ := h
  refine ⟨⟨?_, ?_⟩, ?_⟩
  · exact Nat.le_max_left _ _
  · exact Nat.max_le.mpr ⟨h3.trans h2, Nat.min_le_left _ _⟩
  · unfold calculate_business_profile_ttl
    dsimp only
    split_ifs with ha hb
    · exact ⟨Nat.le_min.mpr ⟨h1.trans h2, by omega⟩, Nat.min_le_left _ _⟩
    · exact ⟨Nat.le_max_left _ _,
        Nat.max_le.mpr ⟨h1.trans h2, (Nat.div_le_self _ _).trans h2⟩⟩
    · exact ⟨h1, h2⟩

/-- C2 amended, witness at the source's default configuration. -/
theorem ttl_bounds_amended_witness :
    ValidConfig ({} : CacheLifecycleConfig) ∧
    (((({} : CacheLifecycleConfig).min_ttl_minutes / 60 ≤
        calculate_assessment_ttl {} "ISO27001" { employee_count := 1500 } ∧
       calculate_assessment_ttl {} "ISO27001" { employee_count := 1500 } ≤
        ({} : CacheLifecycleConfig).max_ttl_hours) ∧
      (1 ≤ calculate_business_profile_ttl {} { employee_count := 1500 } ∧
       calculate_business_profile_ttl {} { employee_count := 1500 } ≤
        ({} : CacheLifecycleConfig).max_ttl_hours))) :=
  ⟨⟨by decide, by decide, by decide⟩,
   ttl_bounds_amended {} "ISO27001" { employee_count := 1500 }
     ⟨by decide, by decide, by decide⟩⟩

/-! ## Claim C7 — performance-based TTL adjustment -/

theorem lastN_length {α : Type} (n : Nat) (l : List α) :
    (lastN n l).length = min n l.length := by
  unfold lastN
  rw [List.length_drop]
  omega

theorem lastN_of_le {α : Type} {n : Nat} {l : List α} (h : l.length ≤ n) :
    lastN n l = l := by
  unfold lastN
  rw [Nat.sub_eq_zero_of_le h, List.drop_zero]

theorem lastN_lastN {α : Type} (n : Nat) (l : List α) :
    lastN n (lastN n l) = lastN n l :=
  lastN_of_le (by rw [lastN_length]; omega)

theorem mean_lt_of_forall_lt {l : List PerfRecord} (hne : l ≠ []) {c : Nat}
    (h : ∀ r ∈ l, r.response_time_ms < c) :
    mean_response_time l < (c : Rat) := by
  have hlen : 0 < l.length := List.length_pos.mpr hne
  have hlenQ : (0 : Rat) < (l.length : Rat) := by exact_mod_cast hlen
  rw [mean_response_time, div_lt_iff₀ hlenQ]
  have hsum : (l.map (fun r => (r.response_time_ms : Rat))).sum <
      (l.map (fun _ => (c : Rat))).sum := by
    apply List.sum_lt_sum
    · intro r hr
      exact_mod_cast (h r hr).le
    · obtain ⟨r, hr⟩ := List.exists_mem_of_ne_nil l hne
      exact ⟨r, hr, by exact_mod_cast h r hr⟩
  calc (l.map (fun r => (r.response_time_ms : Rat))).sum
      < (l.map (fun _ => (c : Rat))).sum := hsum
    _ = (c : Rat) * (l.length : Rat) := by
        rw [List.map_const', List.sum_replicate, nsmul_eq_mul, mul_comm]

theorem mean_gt_of_forall_gt {l : List PerfRecord} (hne : l ≠ []) {c : Nat}
    (h : ∀ r ∈ l, c < r.response_time_ms) :
    (c : Rat) < mean_response_time l := by
  have hlen : 0 < l.length := List.length_pos.mpr hne
  have hlenQ : (0 : Rat) < (l.length : Rat) := by exact_mod_cast hlen
  rw [mean_response_time, lt_div_iff₀ hlenQ]
  have hsum : (l.map (fun _ => (c : Rat))).sum <
      (l.map (fun r => (r.response_time_ms : Rat))).sum := by
    apply List.sum_lt_sum
    · intro r hr
      exact_mod_cast (h r hr).le
    · obtain ⟨r, hr⟩ := List.exists_mem_of_ne_nil l hne
      exact ⟨r, hr, by exact_mod_cast h r hr⟩
  calc (c : Rat) * (l.length : Rat)
      = (l.map (fun _ => (c : Rat))).sum := by
        rw [List.map_const', List.sum_replicate, nsmul_eq_mul, mul_comm]
    _ < _ := hsum

/-- C7: with performance-based TTL enabled, the adjustment for a key is `0`
with fewer than 3 recorded samples; `+ttl_adjustment_factor` with 5 samples
all strictly below the fast threshold; `-ttl_adjustment_factor` with 5
samples all strictly above the slow threshold (for any configuration with
`fast ≤ slow`); `0` whenever the mean lies between the thresholds; and the
computation only ever depends on the last 10 samples of the history. -/
theorem ttl_adjustment_thresholds (cfg : CacheLifecycleConfig)
    (history : List PerfRecord) (hEn : cfg.performance_based_ttl = true) :
    (history.length < 3 → calculate_ttl_adjustment cfg history = 0) ∧
    (history.length = 5 →
      (∀ r ∈ history, r.response_time_ms < cfg.fast_response_threshold_ms) →
      calculate_ttl_adjustment cfg history = cfg.ttl_adjustment_factor) ∧
    (cfg.fast_response_threshold_ms ≤ cfg.slow_response_threshold_ms →
      history.length = 5 →
      (∀ r ∈ history, cfg.slow_response_threshold_ms < r.response_time_ms) →
      calculate_ttl_adjustment cfg history = -cfg.ttl_adjustment_factor) ∧
    (3 ≤ (lastN 10 history).length →
      (cfg.fast_response_threshold_ms : Rat) ≤
        mean_response_time (lastN 10 history) →
      mean_response_time (lastN 10 history) ≤
        (cfg.slow_response_threshold_ms : Rat) →
      calculate_ttl_adjustment cfg history = 0) ∧
    calculate_ttl_adjustment cfg history =
      calculate_ttl_adjustment cfg (lastN 10 history) := by
  have hbranch : ∀ h' : List PerfRecord,
      calculate_ttl_adjustment cfg h' =
        (if (lastN 10 h').length < 3 then 0
         else if mean_response_time (lastN 10 h') <
             (cfg.fast_response_threshold_ms : Rat) then
           cfg.ttl_adjustment_factor
         else if (cfg.slow_response_threshold_ms : Rat) <
             mean_response_time (lastN 10 h') then
           -cfg.ttl_adjustment_factor
         else 0) := by
    intro h'
    unfold calculate_ttl_adjustment
    rw [hEn]
    rfl
  refine ⟨?_, ?_, ?_, ?_, ?_⟩
  · intro hlt
    rw [hbranch, if_pos (by rw [lastN_length]; omega)]
  · intro hlen hfast
    have hrec : lastN 10 history = history := lastN_of_le (by omega)
    have hne : history ≠ [] := by
      intro h
      rw [h] at hlen
      exact absurd hlen (by decide)
    rw [hbranch, hrec, if_neg (by omega),
      if_pos (mean_lt_of_forall_lt hne hfast)]
  · intro hfs hlen hslow
    have hrec : lastN 10 history = history := lastN_of_le (by omega)
    have hne : history ≠ [] := by
      intro h
      rw [h] at hlen
      exact absurd hlen (by decide)
    have hgt : (cfg.slow_response_threshold_ms : Rat) <
        mean_response_time history := mean_gt_of_forall_gt hne hslow
    have hnotfast : ¬ mean_response_time history <
        (cfg.fast_response_threshold_ms : Rat) := by
      have : (cfg.fast_response_threshold_ms : Rat) ≤
          (cfg.slow_response_threshold_ms : Rat) := by exact_mod_cast hfs
      exact not_lt.mpr (this.trans hgt.le)
    rw [hbranch, hrec, if_neg (by omega), if_neg hnotfast, if_pos hgt]
  · intro hlen hlo hhi
    rw [hbranch, if_neg (by omega), if_neg (not_lt.mpr hlo),
      if_neg (not_lt.mpr hhi)]
  · rw [hbranch, hbranch, lastN_lastN]

/-- C7 witness: at the default configuration, five 100 ms samples yield the
positive adjustment `+0.2`. -/
theorem ttl_adjustment_thresholds_witness :
    ({} : CacheLifecycleConfig).performance_based_ttl = true ∧
    fastHistory.length = 5 ∧
    calculate_ttl_adjustment {} fastHistory =
      ({} : CacheLifecycleConfig).ttl_adjustment_factor :=
  ⟨rfl, rfl,
   (ttl_adjustment_thresholds {} fastHistory rfl).2.1 rfl (by decide)⟩

/-! ## Claim C6 — warming-queue insertion -/

theorem insert_by_priority_eq_takeWhile (q : List WarmingEntry)
    (e : WarmingEntry) :
    insert_by_priority q e =
      q.takeWhile (fun x => !decide (e.priority < x.priority)) ++
        e :: q.dropWhile (fun x => !decide (e.priority < x.priority)) := by
  induction q with
  | nil => rfl
  | cons x rest ih =>
    by_cases h : e.priority < x.priority
    · simp [insert_by_priority, h, List.takeWhile_cons, List.dropWhile_cons]
    · simp [insert_by_priority, h, List.takeWhile_cons, List.dropWhile_cons, ih]

theorem insert_by_priority_length (q : List WarmingEntry) (e : WarmingEntry) :
    (insert_by_priority q e).length = q.length + 1 := by
  induction q with
  | nil => rfl
  | cons x rest ih =>
    rw [insert_by_priority]
    by_cases h : e.priority < x.priority
    · simp [h]
    · simp [h, ih]

theorem mem_insert_by_priority {q : List WarmingEntry} {e a : WarmingEntry} :
    a ∈ insert_by_priority q e ↔ a ∈ q ∨ a = e := by
  induction q with
  | nil => simp [insert_by_priority]
  | cons x rest ih =>
    rw [insert_by_priority]
    by_cases h : e.priority < x.priority
    · simp only [if_pos h, List.mem_cons, ih]
      tauto
    · simp only [if_neg h, List.mem_cons, ih]
      tauto

theorem insert_by_priority_pairwise {q : List WarmingEntry}
    (e : WarmingEntry)
    (h : q.Pairwise (fun a b => a.priority ≤ b.priority)) :
    (insert_by_priority q e).Pairwise
      (fun a b => a.priority ≤ b.priority) := by
  induction q with
  | nil => simp [insert_by_priority]
  | cons x rest ih =>
    rw [List.pairwise_cons] at h
    obtain ⟨hx, hrest⟩ := h
    rw [insert_by_priority]
    by_cases hlt : e.priority < x.priority
    · rw [if_pos hlt, List.pairwise_cons]
      refine ⟨?_, List.pairwise_cons.mpr ⟨hx, hrest⟩⟩
      intro b hb
      rcases List.mem_cons.mp hb with rfl | hb
      · exact hlt.le
      · exact hlt.le.trans (hx b hb)
    · rw [if_neg hlt, List.pairwise_cons]
      refine ⟨?_, ih hrest⟩
      intro b hb
      rcases mem_insert_by_priority.mp hb with hb | rfl
      · exact hx b hb
      · exact not_lt.mp hlt

/-- C6: warming-queue insertion is the stable priority insert — the new
entry lands immediately before the first existing entry of strictly greater
priority number (appended when none exists, so equal priorities keep
arrival order); enqueuing priorities [5,1,5,3] yields queue order
[1, 3, 5 (first), 5 (second)]; the queue length never exceeds 100; and on a
priority-sorted queue the insert keeps the queue sorted while the truncation
drops only entries whose priority is greater than or equal to every kept
entry's (the lowest-priority overflow). -/
theorem add_to_warming_queue_queue (s : CacheState) (ct : CacheContentType)
    (ctx : WarmContext) (p : Int) :
    (add_to_warming_queue s ct ctx p).cache_warming_queue =
      if s.config.cache_warming_enabled then
        (if (insert_by_priority s.cache_warming_queue
              (mkWarmingEntry ct ctx p)).length > 100 then
          (insert_by_priority s.cache_warming_queue
            (mkWarmingEntry ct ctx p)).take 100
        else
          insert_by_priority s.cache_warming_queue (mkWarmingEntry ct ctx p))
      else s.cache_warming_queue := by
  unfold add_to_warming_queue
  by_cases hEn : s.config.cache_warming_enabled <;> simp [hEn]

theorem warming_queue_insertion :
    (∀ (q : List WarmingEntry) (e : WarmingEntry),
      insert_by_priority q e =
        q.takeWhile (fun x => !decide (e.priority < x.priority)) ++
          e :: q.dropWhile (fun x => !decide (e.priority < x.priority))) ∧
    queueDemo.cache_warming_queue =
      [mkWarmingEntry .assessment_context (wctx "b") 1,
       mkWarmingEntry .assessment_context (wctx "d") 3,
       mkWarmingEntry .assessment_context (wctx "a") 5,
       mkWarmingEntry .assessment_context (wctx "c") 5] ∧
    (∀ (s : CacheState) (ct : CacheContentType) (ctx : WarmContext)
        (p : Int),
      s.cache_warming_queue.length ≤ 100 →
      (add_to_warming_queue s ct ctx p).cache_warming_queue.length ≤ 100) ∧
    (∀ (s : CacheState) (ct : CacheContentType) (ctx : WarmContext)
        (p : Int),
      s.config.cache_warming_enabled = true →
      s.cache_warming_queue.Pairwise (fun a b => a.priority ≤ b.priority) →
      (add_to_warming_queue s ct ctx p).cache_warming_queue.Pairwise
          (fun a b => a.priority ≤ b.priority) ∧
        ∀ a ∈ (add_to_warming_queue s ct ctx p).cache_warming_queue,
          ∀ b ∈ (insert_by_priority s.cache_warming_queue
              (mkWarmingEntry ct ctx p)).drop 100,
            a.priority ≤ b.priority) := by
  refine ⟨insert_by_priority_eq_takeWhile, by decide, ?_, ?_⟩
  · intro s ct ctx p hlen
    rw [add_to_warming_queue_queue]
    by_cases hEn : s.config.cache_warming_enabled
    · rw [if_pos hEn]
      have hlen' := insert_by_priority_length s.cache_warming_queue
        (mkWarmingEntry ct ctx p)
      by_cases hover : (insert_by_priority s.cache_warming_queue
          (mkWarmingEntry ct ctx p)).length > 100
      · rw [if_pos hover, List.length_take]
        omega
      · rw [if_neg hover]
        omega
    · rw [if_neg hEn]
      exact hlen
  · intro s ct ctx p hEn hpw
    have hpw' := insert_by_priority_pairwise (mkWarmingEntry ct ctx p) hpw
    rw [add_to_warming_queue_queue, if_pos hEn]
    by_cases hover : (insert_by_priority s.cache_warming_queue
        (mkWarmingEntry ct ctx p)).length > 100
    · rw [if_pos hover]
      refine ⟨List.Pairwise.sublist (List.take_sublist 100 _) hpw', ?_⟩
      intro a ha b hb
      have hsplit := List.take_append_drop 100
        (insert_by_priority s.cache_warming_queue (mkWarmingEntry ct ctx p))
      rw [← hsplit] at hpw'
      exact (List.pairwise_append.mp hpw').2.2 a ha b hb
    · rw [if_neg hover]
      refine ⟨hpw', ?_⟩
      intro a ha b hb
      rw [List.drop_eq_nil_of_le (by omega)] at hb
      exact absurd hb (List.not_mem_nil b)

/-- C6 witness: the length bound and the sortedness part, applied at the
fresh state. -/
theorem warming_queue_insertion_witness :
    initState.cache_warming_queue.length ≤ 100 ∧
    initState.config.cache_warming_enabled = true ∧
    (add_to_warming_queue initState .assessment_context (wctx "a")
        5).cache_warming_queue.length ≤ 100 ∧
    (add_to_warming_queue initState .assessment_context (wctx "a")
        5).cache_warming_queue.Pairwise
      (fun a b => a.priority ≤ b.priority) :=
  ⟨by decide, rfl,
   warming_queue_insertion.2.2.1 initState .assessment_context (wctx "a") 5
     (by decide),
   (warming_queue_insertion.2.2.2 initState .assessment_context (wctx "a") 5
     rfl (by decide)).1⟩

/-! ## Claim C1 — idempotent creation before expiry -/

theorem createNew_ok (h : Handle) (s : CacheState) (key : String)
    (c : List String) (m : CacheMetadata) :
    createNew (Except.ok h) s key c m =
      ({ s with
          builder_calls := s.builder_calls + 1,
          provider_creates := s.provider_creates + 1,
          active_caches := dinsert key h s.active_caches,
          cache_metadata := dinsert key m s.cache_metadata,
          metrics := { s.metrics with
            cache_creates := s.metrics.cache_creates + 1,
            total_size_cached_mb :=
              s.metrics.total_size_cached_mb + (m.size_estimate_mb : Int) } },
        some h) := rfl

theorem createNew_err (e : Unit) (s : CacheState) (key : String)
    (c : List String) (m : CacheMetadata) :
    createNew (Except.error e) s key c m =
      (recordMiss
        { s with
          builder_calls := s.builder_calls + 1,
          provider_creates := s.provider_creates + 1 },
       none) := rfl

theorem getOrCreateWith_none {s : CacheState} {key : String}
    (env : Except Unit Handle) (c : List String) (m : CacheMetadata)
    (h0 : alookup s.active_caches key = none) :
    getOrCreateWith env s key c m = createNew env s key c m := by
  unfold getOrCreateWith
  rw [h0]

theorem getOrCreateWith_hit {s : CacheState} {key : String} {ex : Handle}
    (env : Except Unit Handle) (c : List String) (m : CacheMetadata)
    (h0 : alookup s.active_caches key = some ex) (hv : ex.valid = true) :
    getOrCreateWith env s key c m = (recordHit s, some ex) := by
  unfold getOrCreateWith
  rw [h0]
  simp [is_cache_valid, hv]

theorem getOrCreateWith_stale {s : CacheState} {key : String} {ex : Handle}
    (env : Except Unit Handle) (c : List String) (m : CacheMetadata)
    (h0 : alookup s.active_caches key = some ex) (hv : ex.valid = false) :
    getOrCreateWith env s key c m =
      createNew env (remove_cache s key) key c m := by
  unfold getOrCreateWith
  rw [h0]
  simp [is_cache_valid, hv]

theorem remove_cache_use_mock (s : CacheState) (k : String) :
    (remove_cache s k).use_mock = s.use_mock := by
  unfold remove_cache
  cases h0 : alookup s.active_caches k with
  | none => rfl
  | some hdl => by_cases hd : hdl.deleteOk <;> simp [hd]

theorem remove_cache_builder_calls (s : CacheState) (k : String) :
    (remove_cache s k).builder_calls = s.builder_calls := by
  unfold remove_cache
  cases h0 : alookup s.active_caches k with
  | none => rfl
  | some hdl => by_cases hd : hdl.deleteOk <;> simp [hd]

theorem createNew_use_mock (env : Except Unit Handle) (s : CacheState)
    (key : String) (c : List String) (m : CacheMetadata) :
    (createNew env s key c m).1.use_mock = s.use_mock := by
  cases env <;> rfl

theorem getOrCreateWith_use_mock (env : Except Unit Handle) (s : CacheState)
    (key : String) (c : List String) (m : CacheMetadata) :
    (getOrCreateWith env s key c m).1.use_mock = s.use_mock := by
  cases h0 : alookup s.active_caches key with
  | none => rw [getOrCreateWith_none env c m h0, createNew_use_mock]
  | some ex =>
    by_cases hv : ex.valid
    · rw [getOrCreateWith_hit env c m h0 hv]
      rfl
    · rw [getOrCreateWith_stale env c m h0
        (Bool.not_eq_true _ ▸ hv : ex.valid = false)]
      rw [createNew_use_mock, remove_cache_use_mock]

theorem getOrCreateWith_twice (s : CacheState) (key : String)
    (c1 c2 : List String) (m1 m2 : CacheMetadata)
    (env2 : Except Unit Handle) (h1 : Handle) (hvalid : h1.valid = true) :
    ((getOrCreateWith env2
        (getOrCreateWith (Except.ok h1) s key c1 m1).1 key c2 m2).2 =
      (getOrCreateWith (Except.ok h1) s key c1 m1).2) ∧
    ((getOrCreateWith (Except.ok h1) s key c1 m1).2.isSome = true) ∧
    ((getOrCreateWith (Except.ok h1) s key c1 m1).1.builder_calls ≤
      s.builder_calls + 1) ∧
    ((getOrCreateWith env2
        (getOrCreateWith (Except.ok h1) s key c1 m1).1 key c2 m2).1.builder_calls =
      (getOrCreateWith (Except.ok h1) s key c1 m1).1.builder_calls) ∧
    ((getOrCreateWith env2
        (getOrCreateWith (Except.ok h1) s key c1 m1).1 key c2 m2).1.provider_creates =
      (getOrCreateWith (Except.ok h1) s key c1 m1).1.provider_creates) ∧
    ((getOrCreateWith env2
        (getOrCreateWith (Except.ok h1) s key c1 m1).1 key c2 m2).1.metrics.cache_hits =
      (getOrCreateWith (Except.ok h1) s key c1 m1).1.metrics.cache_hits + 1) ∧
    ((getOrCreateWith env2
        (getOrCreateWith (Except.ok h1) s key c1 m1).1 key c2 m2).1.active_caches =
      (getOrCreateWith (Except.ok h1) s key c1 m1).1.active_caches) ∧
    ((getOrCreateWith env2
        (getOrCreateWith (Except.ok h1) s key c1 m1).1 key c2 m2).1.cache_metadata =
      (getOrCreateWith (Except.ok h1) s key c1 m1).1.cache_metadata) := by
  cases h0 : alookup s.active_caches key with
  | none =>
    rw [getOrCreateWith_none (Except.ok h1) c1 m1 h0, createNew_ok]
    have hl : alookup (dinsert key h1 s.active_caches) key = some h1 := by
      rw [alookup_dinsert, if_pos rfl]
    rw [getOrCreateWith_hit env2 c2 m2 hl hvalid]
    exact ⟨rfl, rfl, Nat.le_refl _, rfl, rfl, rfl, rfl, rfl⟩
  | some ex =>
    by_cases hv : ex.valid
    · rw [getOrCreateWith_hit (Except.ok h1) c1 m1 h0 hv]
      have hl : alookup (recordHit s).active_caches key = some ex := h0
      rw [getOrCreateWith_hit env2 c2 m2 hl hv]
      exact ⟨rfl, rfl, Nat.le_succ _, rfl, rfl, rfl, rfl, rfl⟩
    · have hv' : ex.valid = false := Bool.not_eq_true _ ▸ hv
      rw [getOrCreateWith_stale (Except.ok h1) c1 m1 h0 hv', createNew_ok]
      have hl : alookup
          (dinsert key h1 (remove_cache s key).active_caches) key = some h1 := by
        rw [alookup_dinsert, if_pos rfl]
      rw [getOrCreateWith_hit env2 c2 m2 hl hvalid]
      refine ⟨rfl, rfl, ?_, rfl, rfl, rfl, rfl, rfl⟩
      rw [remove_cache_builder_calls]

/-- C1: for each of the three create operations, two successive calls with
identical inputs — when the first call's provider create succeeds and the
resulting handle is still valid (the entry has not expired) — invoke the
content builder at most once in total: the second call finds the live
entry, records a hit, returns the existing handle, and performs no build
and no provider create (assessment creates additionally require non-mock
mode, since test mode bypasses the cache entirely). -/
theorem create_twice_invokes_builder_once :
    (∀ (s : CacheState) (env2 : Except Unit Handle) (h1 : Handle)
        (fw : String) (bp : BusinessProfile) (actx : Option String),
      s.use_mock = false → h1.valid = true →
      create_twice_once (fun e t => create_assessment_cache e t fw bp actx)
        (Except.ok h1) env2 s) ∧
    (∀ (s : CacheState) (env2 : Except Unit Handle) (h1 : Handle)
        (bp : BusinessProfile),
      h1.valid = true →
      create_twice_once (fun e t => create_business_profile_cache e t bp)
        (Except.ok h1) env2 s) ∧
    (∀ (s : CacheState) (env2 : Except Unit Handle) (h1 : Handle)
        (fw : String) (ind : Option String),
      h1.valid = true →
      create_twice_once (fun e t => create_framework_cache e t fw ind)
        (Except.ok h1) env2 s) := by
  refine ⟨?_, ?_, ?_⟩
  · intro s env2 h1 fw bp actx hmock hval
    have e1 : ∀ (e' : Except Unit Handle) (t : CacheState),
        t.use_mock = false →
        create_assessment_cache e' t fw bp actx =
          getOrCreateWith e' t
            (generate_cache_key .assessment_context fw
              (some (bp.id.getD "unknown")))
            (build_assessment_cache_content fw bp actx)
            { type := CacheContentType.assessment_context.value,
              ttl_hours := calculate_assessment_ttl t.config fw bp,
              framework_id := some fw,
              business_profile_id := bp.id,
              size_estimate_mb :=
                size_estimate (build_assessment_cache_content fw bp actx) } := by
      intro e' t hm
      unfold create_assessment_cache
      rw [hm]
      simp only [Bool.false_eq_true, if_false]
    simp only [create_twice_once]
    rw [e1 (Except.ok h1) s hmock,
      e1 env2 _ (by rw [getOrCreateWith_use_mock]; exact hmock)]
    exact getOrCreateWith_twice _ _ _ _ _ _ _ _ hval
  · intro s env2 h1 bp hval
    have e1 : ∀ (e' : Except Unit Handle) (t : CacheState),
        create_business_profile_cache e' t bp =
          getOrCreateWith e' t (generate_business_profile_cache_key bp)
            (build_business_profile_cache_content bp)
            { type := CacheContentType.business_profile.value,
              ttl_hours := calculate_business_profile_ttl t.config bp,
              business_profile_id := bp.id,
              industry := bp.industry,
              size_estimate_mb :=
                size_estimate (build_business_profile_cache_content bp) } :=
      fun _ _ => rfl
    simp only [create_twice_once, e1]
    exact getOrCreateWith_twice _ _ _ _ _ _ _ _ hval
  · intro s env2 h1 fw ind hval
    have e1 : ∀ (e' : Except Unit Handle) (t : CacheState),
        create_framework_cache e' t fw ind =
          getOrCreateWith e' t
            (generate_cache_key .framework_context fw
              (some (match ind with
                     | some u => if u = "" then "general" else u
                     | none => "general")))
            (build_framework_cache_content fw ind)
            { type := CacheContentType.framework_context.value,
              ttl_hours := 12,
              framework_id := some fw,
              industry_context := ind,
              size_estimate_mb :=
                size_estimate (build_framework_cache_content fw ind) } :=
      fun _ _ => rfl
    simp only [create_twice_once, e1]
    exact getOrCreateWith_twice _ _ _ _ _ _ _ _ hval

/-- C1 witness: a fresh non-mock manager, a provider create that returns a
valid handle, and two identical assessment create calls. -/
theorem create_twice_invokes_builder_once_witness :
    initState.use_mock = false ∧ hGood.valid = true ∧
    create_twice_once
      (fun e t => create_assessment_cache e t "GDPR" bpDemo none)
      (Except.ok hGood) (Except.ok hGood) initState :=
  ⟨rfl, rfl,
   create_twice_invokes_builder_once.1 initState (Except.ok hGood) hGood
     "GDPR" bpDemo none rfl rfl⟩

/-! ## Batch-removal lemmas (shared by the invalidation bus and cleanup) -/

theorem mem_delKey {β : Type} {k : String} {l : List (String × β)}
    {p : String × β} (hp : p ∈ delKey k l) : p ∈ l := by
  rw [delKey_eq_filter] at hp
  exact (List.mem_filter.mp hp).1

theorem mem_dinsert {β : Type} {k : String} {v : β} {l : List (String × β)}
    {p : String × β} (hp : p ∈ dinsert k v l) : p ∈ l ∨ p = (k, v) := by
  unfold dinsert at hp
  by_cases hs : (alookup l k).isSome
  · rw [if_pos hs] at hp
    obtain ⟨q, hq, hfq⟩ := List.mem_map.mp hp
    by_cases h1 : q.1 = k
    · right
      rw [if_pos h1] at hfq
      exact hfq.symm
    · left
      rw [if_neg h1] at hfq
      exact hfq ▸ hq
  · rw [if_neg hs] at hp
    rcases List.mem_append.mp hp with h | h
    · exact Or.inl h
    · exact Or.inr (List.mem_singleton.mp h)

theorem eq_of_mem_of_nodup_keys {β : Type} {l : List (String × β)}
    (hnd : (l.map Prod.fst).Nodup) {p q : String × β}
    (hp : p ∈ l) (hq : q ∈ l) (h : p.1 = q.1) : p = q := by
  induction l with
  | nil => cases hp
  | cons x l ih =>
    rw [List.map_cons, List.nodup_cons] at hnd
    obtain ⟨hx, hnd'⟩ := hnd
    rcases List.mem_cons.mp hp with rfl | hp' <;>
      rcases List.mem_cons.mp hq with rfl | hq'
    · rfl
    · exact absurd (h ▸ List.mem_map_of_mem Prod.fst hq') hx
    · exact absurd (h ▸ List.mem_map_of_mem Prod.fst hp') (h ▸ hx)
    · exact ih hnd' hp' hq'

theorem alookup_eq_of_mem_nodup {β : Type} {l : List (String × β)}
    (hnd : (l.map Prod.fst).Nodup) {k : String} {v : β}
    (h : (k, v) ∈ l) : alookup l k = some v := by
  induction l with
  | nil => cases h
  | cons x l ih =>
    rw [List.map_cons, List.nodup_cons] at hnd
    obtain ⟨hx, hnd'⟩ := hnd
    rcases List.mem_cons.mp h with rfl | h'
    · rw [alookup_cons, if_pos rfl]
    · rw [alookup_cons]
      have hne : ¬ x.1 = k := by
        intro he
        exact hx (he ▸ List.mem_map_of_mem Prod.fst h')
      rw [if_neg hne]
      exact ih hnd' h'

theorem invalidate_cache_keys_eq_foldl (s : CacheState) (K : List String) :
    invalidate_cache_keys s K = K.foldl invalidate_step s := rfl

theorem invalidate_step_of_none {t : CacheState} {k : String}
    (h0 : alookup t.active_caches k = none) : invalidate_step t k = t := by
  unfold invalidate_step
  rw [h0]

theorem invalidate_step_of_del {t : CacheState} {k : String} {hdl : Handle}
    (h0 : alookup t.active_caches k = some hdl) (hd : hdl.deleteOk = true) :
    invalidate_step t k =
      { t with
        active_caches := delKey k t.active_caches,
        cache_metadata := delKey k t.cache_metadata } := by
  unfold invalidate_step
  rw [h0]
  simp [hd]

theorem invalidate_step_of_fail {t : CacheState} {k : String} {hdl : Handle}
    (h0 : alookup t.active_caches k = some hdl) (hd : hdl.deleteOk = false) :
    invalidate_step t k = t := by
  unfold invalidate_step
  rw [h0]
  simp [hd]

theorem invalidate_step_keeps {t : CacheState} {k : String}
    {p : String × Handle} (hp : p ∈ t.active_caches) (hne : p.1 ≠ k) :
    p ∈ (invalidate_step t k).active_caches := by
  cases h0 : alookup t.active_caches k with
  | none => rw [invalidate_step_of_none h0]; exact hp
  | some hdl =>
    by_cases hd : hdl.deleteOk
    · rw [invalidate_step_of_del h0 hd]
      show p ∈ delKey k t.active_caches
      rw [delKey_eq_filter, List.mem_filter]
      exact ⟨hp, by simpa using hne⟩
    · rw [invalidate_step_of_fail h0 (by simpa using hd)]
      exact hp

theorem foldl_invalidate_step_keeps (K : List String) (s : CacheState)
    {p : String × Handle} (hp : p ∈ s.active_caches) (hnk : p.1 ∉ K) :
    p ∈ (K.foldl invalidate_step s).active_caches := by
  induction K generalizing s with
  | nil => exact hp
  | cons k K' ih =>
    rw [List.foldl_cons]
    have h1 : p.1 ≠ k := fun h => hnk (h ▸ List.mem_cons_self k K')
    exact ih (invalidate_step s k) (invalidate_step_keeps hp h1)
      (fun h => hnk (List.mem_cons_of_mem k h))

theorem foldl_invalidate_step_active (K : List String) (s : CacheState)
    (hOK : ∀ p ∈ s.active_caches, p.1 ∈ K → p.2.deleteOk = true) :
    (K.foldl invalidate_step s).active_caches =
      s.active_caches.filter (fun p => !(decide (p.1 ∈ K))) := by
  induction K generalizing s with
  | nil =>
    rw [List.foldl_nil]
    symm
    apply List.filter_eq_self.mpr
    intro p _
    simp
  | cons k K' ih =>
    rw [List.foldl_cons]
    cases h0 : alookup s.active_caches k with
    | none =>
      rw [invalidate_step_of_none h0, ih s (fun p hp hk =>
        hOK p hp (List.mem_cons_of_mem k hk))]
      apply List.filter_congr
      intro p hp
      have hne : p.1 ≠ k := (alookup_eq_none_iff _ _).mp h0 p hp
      simp [List.mem_cons, hne]
    | some hdl =>
      have hd : hdl.deleteOk = true :=
        hOK (k, hdl) (mem_of_alookup_eq_some h0) (List.mem_cons_self k K')
      rw [invalidate_step_of_del h0 hd, ih _ (fun p hp hk =>
        hOK p (mem_delKey hp) (List.mem_cons_of_mem k hk))]
      show (delKey k s.active_caches).filter _ = _
      rw [delKey_eq_filter, List.filter_filter]
      apply List.filter_congr
      intro p hp
      by_cases h1 : p.1 = k <;> by_cases h2 : p.1 ∈ K' <;>
        simp [h1, h2, List.mem_cons]

/-- Lemma: `_remove_cache` and the invalidation step act identically on the
two maps (they differ only in the size accounting inside `metrics`). -/
theorem remove_cache_maps_eq (t : CacheState) (k : String) :
    (remove_cache t k).active_caches = (invalidate_step t k).active_caches ∧
    (remove_cache t k).cache_metadata =
      (invalidate_step t k).cache_metadata := by
  unfold remove_cache invalidate_step
  cases h0 : alookup t.active_caches k with
  | none => exact ⟨rfl, rfl⟩
  | some hdl => by_cases hd : hdl.deleteOk <;> simp [hd]

theorem invalidate_step_congr {t u : CacheState} (k : String)
    (ha : t.active_caches = u.active_caches)
    (hm : t.cache_metadata = u.cache_metadata) :
    (invalidate_step t k).active_caches =
      (invalidate_step u k).active_caches ∧
    (invalidate_step t k).cache_metadata =
      (invalidate_step u k).cache_metadata := by
  cases h0 : alookup u.active_caches k with
  | none =>
    have h0t : alookup t.active_caches k = none := by rw [ha, h0]
    rw [invalidate_step_of_none h0, invalidate_step_of_none h0t]
    exact ⟨ha, hm⟩
  | some hdl =>
    have h0t : alookup t.active_caches k = some hdl := by rw [ha, h0]
    by_cases hd : hdl.deleteOk
    · rw [invalidate_step_of_del h0 hd, invalidate_step_of_del h0t hd]
      constructor
      · show delKey k t.active_caches = delKey k u.active_caches
        rw [ha]
      · show delKey k t.cache_metadata = delKey k u.cache_metadata
        rw [hm]
    · have hd' : hdl.deleteOk = false := by simpa using hd
      rw [invalidate_step_of_fail h0 hd', invalidate_step_of_fail h0t hd']
      exact ⟨ha, hm⟩

theorem foldl_invalidate_step_congr (K : List String) {t u : CacheState}
    (ha : t.active_caches = u.active_caches)
    (hm : t.cache_metadata = u.cache_metadata) :
    (K.foldl invalidate_step t).active_caches =
      (K.foldl invalidate_step u).active_caches ∧
    (K.foldl invalidate_step t).cache_metadata =
      (K.foldl invalidate_step u).cache_metadata := by
  induction K generalizing t u with
  | nil => exact ⟨ha, hm⟩
  | cons k K' ih =>
    rw [List.foldl_cons, List.foldl_cons]
    obtain ⟨ha', hm'⟩ := invalidate_step_congr k ha hm
    exact ih ha' hm'

theorem foldl_remove_cache_maps (K : List String) (s : CacheState) :
    (K.foldl (fun t k => remove_cache t k) s).active_caches =
      (K.foldl invalidate_step s).active_caches ∧
    (K.foldl (fun t k => remove_cache t k) s).cache_metadata =
      (K.foldl invalidate_step s).cache_metadata := by
  induction K generalizing s with
  | nil => exact ⟨rfl, rfl⟩
  | cons k K' ih =>
    rw [List.foldl_cons, List.foldl_cons]
    obtain ⟨ha, hm⟩ := remove_cache_maps_eq s k
    obtain ⟨ha2, hm2⟩ := foldl_invalidate_step_congr K' ha hm
    exact ⟨(ih (remove_cache s k)).1.trans ha2,
      (ih (remove_cache s k)).2.trans hm2⟩

/-! ## Claim C8 — cleanup of expired entries -/

/-- C8 counterexample: on a state with a single expired entry whose
provider delete raises, `cleanup_expired_caches` returns 1 but removes
nothing — the count is not "the number of entries removed", and an entry
whose validity probe reports false stays in the live map. -/
theorem cleanup_expired_counterexample :
    (cleanup_expired_caches sBadClean).2 = 1 ∧
    (cleanup_expired_caches sBadClean).1.active_caches =
      sBadClean.active_caches ∧
    alookup sBadClean.active_caches keyDemo = some hExpiredBad ∧
    is_cache_valid hExpiredBad = false := by
  refine ⟨rfl, ?_, by decide, rfl⟩
  decide

/-- C8 amended: when the live map's keys are duplicate-free and the
provider delete succeeds for every invalid entry, `cleanup_expired_caches`
removes exactly the entries whose validity probe fails and leaves the valid
ones; the returned count is the number of invalid entries — which counts
also entries whose provider delete fails and therefore stay in the map. -/
theorem cleanup_expired_amended (s : CacheState)
    (hnd : (s.active_caches.map Prod.fst).Nodup)
    (hOK : ∀ p ∈ s.active_caches,
      is_cache_valid p.2 = false → p.2.deleteOk = true) :
    (cleanup_expired_caches s).1.active_caches =
      s.active_caches.filter (fun p => is_cache_valid p.2) ∧
    (cleanup_expired_caches s).2 =
      (s.active_caches.filter (fun p => !(is_cache_valid p.2))).length := by
  have hcount : (cleanup_expired_caches s).2 =
      (s.active_caches.filter (fun p => !(is_cache_valid p.2))).length := by
    show ((s.active_caches.filter
      (fun p => !(is_cache_valid p.2))).map Prod.fst).length = _
    rw [List.length_map]
  refine ⟨?_, hcount⟩
  show ((((s.active_caches.filter (fun p => !(is_cache_valid p.2))).map
      Prod.fst)).foldl (fun t k => remove_cache t k) s).active_caches = _
  rw [(foldl_remove_cache_maps _ s).1]
  have hmemK : ∀ p ∈ s.active_caches,
      (p.1 ∈ (s.active_caches.filter
          (fun p => !(is_cache_valid p.2))).map Prod.fst ↔
        is_cache_valid p.2 = false) := by
    intro p hp
    constructor
    · intro hk
      obtain ⟨q, hq, hq1⟩ := List.mem_map.mp hk
      have hqf := List.mem_filter.mp hq
      have hqp : q = p := eq_of_mem_of_nodup_keys hnd hqf.1 hp hq1
      have := hqf.2
      rw [hqp] at this
      simpa using this
    · intro hv
      exact List.mem_map_of_mem Prod.fst
        (List.mem_filter.mpr ⟨hp, by rw [hv]; rfl⟩)
  rw [foldl_invalidate_step_active _ s (fun p hp hk =>
    hOK p hp ((hmemK p hp).mp hk))]
  apply List.filter_congr
  intro p hp
  by_cases hv : is_cache_valid p.2
  · have : p.1 ∉ (s.active_caches.filter
        (fun p => !(is_cache_valid p.2))).map Prod.fst := by
      intro hk
      rw [(hmemK p hp).mp hk] at hv
      cases hv
    simp [this, hv]
  · have hv' : is_cache_valid p.2 = false := by simpa using hv
    simp [(hmemK p hp).mpr hv', hv']

/-- C8 amended, witness: one expired entry with a succeeding delete is
removed and counted. -/
theorem cleanup_expired_amended_witness :
    (cleanup_expired_caches sExpOk).1.active_caches =
      sExpOk.active_caches.filter (fun p => is_cache_valid p.2) ∧
    (cleanup_expired_caches sExpOk).2 =
      (sExpOk.active_caches.filter (fun p => !(is_cache_valid p.2))).length :=
  cleanup_expired_amended sExpOk (by decide) (by decide)

/-! ## Claim C4 — business-profile invalidation -/

theorem mem_bp_keys_iff {s : CacheState}
    (hnd : (s.cache_metadata.map Prod.fst).Nodup) (k X : String) :
    k ∈ (s.cache_metadata.filter
        (fun p => p.2.business_profile_id = some X)).map Prod.fst ↔
      metadata_matches_profile s k X = true := by
  constructor
  · intro hk
    obtain ⟨q, hq, hq1⟩ := List.mem_map.mp hk
    have hqf := List.mem_filter.mp hq
    have hmem : (k, q.2) ∈ s.cache_metadata := by
      rw [← hq1]
      exact hqf.1
    unfold metadata_matches_profile
    rw [alookup_eq_of_mem_nodup hnd hmem]
    simpa using hqf.2
  · intro hm
    unfold metadata_matches_profile at hm
    cases h0 : alookup s.cache_metadata k with
    | none => rw [h0] at hm; cases hm
    | some m =>
      rw [h0] at hm
      refine List.mem_map.mpr ⟨(k, m), List.mem_filter.mpr
        ⟨mem_of_alookup_eq_some h0, ?_⟩, rfl⟩
      simpa using hm

theorem trigger_bp_eq (s : CacheState) (ctx : TriggerContext) (X : String)
    (hflag : s.config.intelligent_invalidation = true)
    (hctx : ctx.business_profile_id = some X) :
    trigger_intelligent_invalidation s "business_profile_update" ctx =
      invalidate_business_profile_caches
        { s with
          invalidation_triggers :=
            dinsert ("business_profile_update:" ++
                ctx.business_profile_id.getD "global")
              Unit.unit s.invalidation_triggers } X := by
  unfold trigger_intelligent_invalidation
  rw [hflag, hctx]
  rfl

/-- C4 amended: with intelligent invalidation enabled and duplicate-free
metadata keys, a `business_profile_update` trigger for profile `X` (a)
always keeps every live entry whose stored metadata does not correlate it
with `X` — including when some deletes fail, the batch continues — and
(b) when the provider delete succeeds for every matching entry, removes
exactly the matching entries.  (A matching entry whose delete raises stays
in the map, so the unconditional "removes exactly" of the original claim is
false.) -/
theorem business_profile_invalidation_amended (s : CacheState) (X : String)
    (ctx : TriggerContext)
    (hflag : s.config.intelligent_invalidation = true)
    (hctx : ctx.business_profile_id = some X)
    (hnd : (s.cache_metadata.map Prod.fst).Nodup) :
    (∀ p ∈ s.active_caches, metadata_matches_profile s p.1 X = false →
      p ∈ (trigger_intelligent_invalidation s "business_profile_update"
        ctx).active_caches) ∧
    ((∀ p ∈ s.active_caches, metadata_matches_profile s p.1 X = true →
        p.2.deleteOk = true) →
      (trigger_intelligent_invalidation s "business_profile_update"
        ctx).active_caches =
        s.active_caches.filter
          (fun p => !(metadata_matches_profile s p.1 X))) := by
  rw [trigger_bp_eq s ctx X hflag hctx]
  unfold invalidate_business_profile_caches
  rw [invalidate_cache_keys_eq_foldl]
  dsimp only
  constructor
  · intro p hp hm
    refine foldl_invalidate_step_keeps _ _ ?_ ?_
    · exact hp
    · intro hk
      rw [(mem_bp_keys_iff hnd p.1 X).mp hk] at hm
      cases hm
  · intro hOK
    refine (foldl_invalidate_step_active _ _ ?_).trans ?_
    · intro p hp hk
      refine hOK p ?_ ((mem_bp_keys_iff hnd p.1 X).mp ?_)
      · exact hp
      · exact hk
    · dsimp only
      refine List.filter_congr ?_
      intro p hp
      by_cases hm : metadata_matches_profile s p.1 X = true
      · simp [(mem_bp_keys_iff hnd p.1 X).mpr hm, hm]
      · have hm' : metadata_matches_profile s p.1 X = false := by
          simpa using hm
        have hnk : p.1 ∉ (s.cache_metadata.filter
            (fun p => p.2.business_profile_id = some X)).map Prod.fst := by
          intro hk
          rw [(mem_bp_keys_iff hnd p.1 X).mp hk] at hm'
          cases hm'
        simp [hnk, hm']

/-- C4 counterexample: an entry correlated with profile `bp1` whose
provider delete raises survives the `business_profile_update` trigger for
`bp1` — so the trigger does not remove every matching entry. -/
theorem business_profile_invalidation_counterexample :
    metadata_matches_profile sBadDel keyDemo "bp1" = true ∧
    alookup (trigger_intelligent_invalidation sBadDel
        "business_profile_update"
        { business_profile_id := some "bp1" }).active_caches keyDemo =
      some hBadDel :=
  ⟨by decide, by decide⟩

/-- C4 amended, witness: with a deletable matching entry the trigger
removes exactly the matching entries. -/
theorem business_profile_invalidation_amended_witness :
    (trigger_intelligent_invalidation sOne "business_profile_update"
      { business_profile_id := some "bp1" }).active_caches =
      sOne.active_caches.filter
        (fun p => !(metadata_matches_profile sOne p.1 "bp1")) :=
  (business_profile_invalidation_amended sOne "bp1"
    { business_profile_id := some "bp1" } (by decide) rfl (by decide)).2
    (by decide)

/-! ## Claim C5 — regulatory invalidation -/

theorem mem_reg_keys_iff {s : CacheState}
    (hnd : (s.cache_metadata.map Prod.fst).Nodup) (k R : String) :
    k ∈ (s.cache_metadata.filter
        (fun p => R ∈ p.2.regulations)).map Prod.fst ↔
      metadata_mentions_regulation s k R = true := by
  constructor
  · intro hk
    obtain ⟨q, hq, hq1⟩ := List.mem_map.mp hk
    have hqf := List.mem_filter.mp hq
    have hmem : (k, q.2) ∈ s.cache_metadata := by
      rw [← hq1]
      exact hqf.1
    unfold metadata_mentions_regulation
    rw [alookup_eq_of_mem_nodup hnd hmem]
    simpa using hqf.2
  · intro hm
    unfold metadata_mentions_regulation at hm
    cases h0 : alookup s.cache_metadata k with
    | none => rw [h0] at hm; cases hm
    | some m =>
      rw [h0] at hm
      refine List.mem_map.mpr ⟨(k, m), List.mem_filter.mpr
        ⟨mem_of_alookup_eq_some h0, ?_⟩, rfl⟩
      simpa using hm

theorem trigger_reg_eq (s : CacheState) (ctx : TriggerContext) (R : String)
    (hflag : s.config.intelligent_invalidation = true)
    (hctx : ctx.regulation_id = some R) :
    trigger_intelligent_invalidation s "regulatory_change" ctx =
      invalidate_regulatory_caches
        { s with
          invalidation_triggers :=
            dinsert ("regulatory_change:" ++
                ctx.business_profile_id.getD "global")
              Unit.unit s.invalidation_triggers } R := by
  unfold trigger_intelligent_invalidation
  rw [hflag, hctx]
  rfl

theorem invalidate_step_metadata_subset {t : CacheState} {k : String}
    {p : String × CacheMetadata}
    (hp : p ∈ (invalidate_step t k).cache_metadata) :
    p ∈ t.cache_metadata := by
  cases h0 : alookup t.active_caches k with
  | none => rw [invalidate_step_of_none h0] at hp; exact hp
  | some hdl =>
    by_cases hd : hdl.deleteOk
    · rw [invalidate_step_of_del h0 hd] at hp
      exact mem_delKey hp
    · rw [invalidate_step_of_fail h0 (by simpa using hd)] at hp
      exact hp

theorem remove_cache_metadata_subset {s : CacheState} {k : String}
    {p : String × CacheMetadata}
    (hp : p ∈ (remove_cache s k).cache_metadata) : p ∈ s.cache_metadata :=
  invalidate_step_metadata_subset ((remove_cache_maps_eq s k).2 ▸ hp)

theorem getOrCreateWith_metadata_regs (env : Except Unit Handle)
    (s : CacheState) (key : String) (c : List String) (m : CacheMetadata)
    (hm : m.regulations = [])
    (hreg : ∀ p ∈ s.cache_metadata, p.2.regulations = []) :
    ∀ p ∈ (getOrCreateWith env s key c m).1.cache_metadata,
      p.2.regulations = [] := by
  intro p hp
  cases h0 : alookup s.active_caches key with
  | some ex =>
    by_cases hv : ex.valid
    · rw [getOrCreateWith_hit env c m h0 hv] at hp
      exact hreg p hp
    · rw [getOrCreateWith_stale env c m h0 (by simpa using hv)] at hp
      cases env with
      | error e =>
        rw [createNew_err] at hp
        exact hreg p (remove_cache_metadata_subset hp)
      | ok h =>
        rw [createNew_ok] at hp
        rcases mem_dinsert hp with hold | rfl
        · exact hreg p (remove_cache_metadata_subset hold)
        · exact hm
  | none =>
    rw [getOrCreateWith_none env c m h0] at hp
    cases env with
    | error e =>
      rw [createNew_err] at hp
      exact hreg p hp
    | ok h =>
      rw [createNew_ok] at hp
      rcases mem_dinsert hp with hold | rfl
      · exact hreg p hold
      · exact hm

theorem create_assessment_metadata_regs (env : Except Unit Handle)
    (s : CacheState) (fw : String) (bp : BusinessProfile)
    (actx : Option String)
    (hreg : ∀ p ∈ s.cache_metadata, p.2.regulations = []) :
    ∀ p ∈ (create_assessment_cache env s fw bp actx).1.cache_metadata,
      p.2.regulations = [] := by
  by_cases hmu : s.use_mock
  · unfold create_assessment_cache
    rw [if_pos hmu]
    exact hreg
  · unfold create_assessment_cache
    rw [if_neg hmu]
    exact getOrCreateWith_metadata_regs _ _ _ _ _ rfl hreg

theorem trigger_reg_noop (s : CacheState) (ctx : TriggerContext)
    (hreg : ∀ p ∈ s.cache_metadata, p.2.regulations = []) :
    (trigger_intelligent_invalidation s "regulatory_change"
      ctx).active_caches = s.active_caches ∧
    (trigger_intelligent_invalidation s "regulatory_change"
      ctx).cache_metadata = s.cache_metadata := by
  by_cases hflag : s.config.intelligent_invalidation
  · cases hctx : ctx.regulation_id with
    | none =>
      unfold trigger_intelligent_invalidation
      rw [hflag, hctx]
      exact ⟨rfl, rfl⟩
    | some R =>
      rw [trigger_reg_eq s ctx R hflag hctx]
      unfold invalidate_regulatory_caches
      rw [invalidate_cache_keys_eq_foldl]
      dsimp only
      have hK : s.cache_metadata.filter
          (fun p => decide (R ∈ p.2.regulations)) = [] := by
        rw [List.filter_eq_nil_iff]
        intro p hp
        rw [hreg p hp]
        simp
      rw [hK]
      exact ⟨rfl, rfl⟩
  · have hf : s.config.intelligent_invalidation = false := by
      simpa using hflag
    unfold trigger_intelligent_invalidation
    rw [hf]
    exact ⟨rfl, rfl⟩

/-- C5 amended: (a) a `regulatory_change` trigger with regulation id `R`
keeps every entry whose stored metadata does not list `R` and, when every
matching entry's delete succeeds, removes exactly the entries whose
metadata `regulations` list contains `R`; but (b) none of the public create
operations ever writes the `regulations` metadata key, so (c) on any state
populated through the public creates the regulatory trigger deletes
nothing — created entries do not carry the regulation ids the match needs. -/
theorem regulatory_invalidation_amended :
    (∀ (s : CacheState) (R : String) (ctx : TriggerContext),
      s.config.intelligent_invalidation = true →
      ctx.regulation_id = some R →
      (s.cache_metadata.map Prod.fst).Nodup →
      ((∀ p ∈ s.active_caches,
          metadata_mentions_regulation s p.1 R = false →
          p ∈ (trigger_intelligent_invalidation s "regulatory_change"
            ctx).active_caches) ∧
       ((∀ p ∈ s.active_caches,
            metadata_mentions_regulation s p.1 R = true →
            p.2.deleteOk = true) →
         (trigger_intelligent_invalidation s "regulatory_change"
            ctx).active_caches =
           s.active_caches.filter
             (fun p => !(metadata_mentions_regulation s p.1 R))))) ∧
    (∀ (env : Except Unit Handle) (s : CacheState) (fw : String)
        (bp : BusinessProfile) (actx : Option String),
      (∀ p ∈ s.cache_metadata, p.2.regulations = []) →
      ∀ p ∈ (create_assessment_cache env s fw bp actx).1.cache_metadata,
        p.2.regulations = []) ∧
    (∀ (env : Except Unit Handle) (s : CacheState) (bp : BusinessProfile),
      (∀ p ∈ s.cache_metadata, p.2.regulations = []) →
      ∀ p ∈ (create_business_profile_cache env s bp).1.cache_metadata,
        p.2.regulations = []) ∧
    (∀ (env : Except Unit Handle) (s : CacheState) (fw : String)
        (ind : Option String),
      (∀ p ∈ s.cache_metadata, p.2.regulations = []) →
      ∀ p ∈ (create_framework_cache env s fw ind).1.cache_metadata,
        p.2.regulations = []) ∧
    (∀ (s : CacheState) (ctx : TriggerContext),
      (∀ p ∈ s.cache_metadata, p.2.regulations = []) →
      (trigger_intelligent_invalidation s "regulatory_change"
        ctx).active_caches = s.active_caches ∧
      (trigger_intelligent_invalidation s "regulatory_change"
        ctx).cache_metadata = s.cache_metadata) := by
  refine ⟨?_, create_assessment_metadata_regs, ?_, ?_, trigger_reg_noop⟩
  · intro s R ctx hflag hctx hnd
    rw [trigger_reg_eq s ctx R hflag hctx]
    unfold invalidate_regulatory_caches
    rw [invalidate_cache_keys_eq_foldl]
    dsimp only
    constructor
    · intro p hp hm
      refine foldl_invalidate_step_keeps _ _ ?_ ?_
      · exact hp
      · intro hk
        rw [(mem_reg_keys_iff hnd p.1 R).mp hk] at hm
        cases hm
    · intro hOK
      refine (foldl_invalidate_step_active _ _ ?_).trans ?_
      · intro p hp hk
        refine hOK p ?_ ((mem_reg_keys_iff hnd p.1 R).mp ?_)
        · exact hp
        · exact hk
      · dsimp only
        refine List.filter_congr ?_
        intro p hp
        by_cases hm : metadata_mentions_regulation s p.1 R = true
        · simp [(mem_reg_keys_iff hnd p.1 R).mpr hm, hm]
        · have hm' : metadata_mentions_regulation s p.1 R = false := by
            simpa using hm
          have hnk : p.1 ∉ (s.cache_metadata.filter
              (fun p => R ∈ p.2.regulations)).map Prod.fst := by
            intro hk
            rw [(mem_reg_keys_iff hnd p.1 R).mp hk] at hm'
            cases hm'
          simp [hnk, hm']
  · intro env s bp hreg
    exact getOrCreateWith_metadata_regs _ _ _ _ _ rfl hreg
  · intro env s fw ind hreg
    exact getOrCreateWith_metadata_regs _ _ _ _ _ rfl hreg

/-- C5 counterexample: an assessment entry created through the public
create operation for framework `GDPR` carries an empty `regulations` list,
and the `regulatory_change` trigger for `GDPR` removes nothing from the
(non-empty) live map. -/
theorem regulatory_invalidation_counterexample :
    Option.map CacheMetadata.regulations
      (alookup sOne.cache_metadata keyDemo) = some [] ∧
    (trigger_intelligent_invalidation sOne "regulatory_change"
      { regulation_id := some "GDPR" }).active_caches =
      sOne.active_caches ∧
    sOne.active_caches.length = 1 :=
  ⟨by decide, by decide, by decide⟩

/-- C5 amended, witness: the no-op consequence applied to the concretely
created one-entry state. -/
theorem regulatory_invalidation_amended_witness :
    (trigger_intelligent_invalidation sOne "regulatory_change"
      { regulation_id := some "GDPR" }).active_caches =
      sOne.active_caches ∧
    (trigger_intelligent_invalidation sOne "regulatory_change"
      { regulation_id := some "GDPR" }).cache_metadata =
      sOne.cache_metadata :=
  regulatory_invalidation_amended.2.2.2.2 sOne
    { regulation_id := some "GDPR" } (by decide)

/-! ## Claim C9 — provider create failure -/

/-- C9 counterexample: when the provider's create raises, the assessment
create completes normally — the caller receives `None` (no typed error
propagates), no entry is added to either map, and a cache miss is
recorded. -/
theorem create_failure_counterexample :
    (create_assessment_cache (Except.error Unit.unit) initState "GDPR"
      bpDemo none).2 = none ∧
    (create_assessment_cache (Except.error Unit.unit) initState "GDPR"
      bpDemo none).1.active_caches = [] ∧
    (create_assessment_cache (Except.error Unit.unit) initState "GDPR"
      bpDemo none).1.cache_metadata = [] ∧
    (create_assessment_cache (Except.error Unit.unit) initState "GDPR"
      bpDemo none).1.metrics.cache_misses = 1 :=
  ⟨rfl, rfl, rfl, rfl⟩

/-- C9 amended: when the backing provider's create raises during a
non-mock assessment create on a key with no live entry, the exception is
caught inside the operation: the caller receives `None` rather than a
typed error, a cache miss is recorded, no entry is added to either map,
and neither the builder nor the provider is retried (each is invoked
exactly once). -/
theorem create_failure_amended (s : CacheState) (fw : String)
    (bp : BusinessProfile) (actx : Option String) (e : Unit)
    (hmock : s.use_mock = false)
    (habsent : alookup s.active_caches
      (generate_cache_key .assessment_context fw
        (some (bp.id.getD "unknown"))) = none) :
    (create_assessment_cache (Except.error e) s fw bp actx).2 = none ∧
    (create_assessment_cache (Except.error e) s fw bp
      actx).1.active_caches = s.active_caches ∧
    (create_assessment_cache (Except.error e) s fw bp
      actx).1.cache_metadata = s.cache_metadata ∧
    (create_assessment_cache (Except.error e) s fw bp
      actx).1.metrics.cache_misses = s.metrics.cache_misses + 1 ∧
    (create_assessment_cache (Except.error e) s fw bp
      actx).1.provider_creates = s.provider_creates + 1 ∧
    (create_assessment_cache (Except.error e) s fw bp
      actx).1.builder_calls = s.builder_calls + 1 := by
  have e1 : create_assessment_cache (Except.error e) s fw bp actx =
      getOrCreateWith (Except.error e) s
        (generate_cache_key .assessment_context fw
          (some (bp.id.getD "unknown")))
        (build_assessment_cache_content fw bp actx)
        { type := CacheContentType.assessment_context.value,
          ttl_hours := calculate_assessment_ttl s.config fw bp,
          framework_id := some fw,
          business_profile_id := bp.id,
          size_estimate_mb :=
            size_estimate (build_assessment_cache_content fw bp actx) } := by
    unfold create_assessment_cache
    rw [hmock]
    simp only [Bool.false_eq_true, if_false]
  rw [e1, getOrCreateWith_none _ _ _ habsent, createNew_err]
  exact ⟨rfl, rfl, rfl, rfl, rfl, rfl⟩

/-- C9 amended, witness at the fresh state. -/
theorem create_failure_amended_witness :
    initState.use_mock = false ∧
    alookup initState.active_caches
      (generate_cache_key .assessment_context "GDPR"
        (some (bpDemo.id.getD "unknown"))) = none ∧
    (create_assessment_cache (Except.error Unit.unit) initState "GDPR"
      bpDemo none).2 = none ∧
    (create_assessment_cache (Except.error Unit.unit) initState "GDPR"
      bpDemo none).1.active_caches = initState.active_caches ∧
    (create_assessment_cache (Except.error Unit.unit) initState "GDPR"
      bpDemo none).1.provider_creates = initState.provider_creates + 1 :=
  ⟨rfl, rfl,
   (create_failure_amended initState "GDPR" bpDemo none Unit.unit rfl
      rfl).1,
   (create_failure_amended initState "GDPR" bpDemo none Unit.unit rfl
      rfl).2.1,
   (create_failure_amended initState "GDPR" bpDemo none Unit.unit rfl
      rfl).2.2.2.2.1⟩

/-! ## Claim C10 — key synchronization of the two maps -/

theorem invalidate_step_synced {t : CacheState} (h : SyncedMaps t)
    (k : String) : SyncedMaps (invalidate_step t k) := by
  cases h0 : alookup t.active_caches k with
  | none => rw [invalidate_step_of_none h0]; exact h
  | some hdl =>
    by_cases hd : hdl.deleteOk
    · rw [invalidate_step_of_del h0 hd]
      intro k'
      show (alookup (delKey k t.active_caches) k').isSome =
        (alookup (delKey k t.cache_metadata) k').isSome
      rw [alookup_delKey, alookup_delKey]
      by_cases hk : k = k' <;> simp [hk, h k']
    · rw [invalidate_step_of_fail h0 (by simpa using hd)]
      exact h

theorem foldl_invalidate_step_synced (K : List String) {s : CacheState}
    (h : SyncedMaps s) : SyncedMaps (K.foldl invalidate_step s) := by
  induction K generalizing s with
  | nil => exact h
  | cons k K' ih =>
    rw [List.foldl_cons]
    exact ih (invalidate_step_synced h k)

theorem remove_cache_synced {s : CacheState} (h : SyncedMaps s)
    (k : String) : SyncedMaps (remove_cache s k) := by
  intro k'
  rw [(remove_cache_maps_eq s k).1, (remove_cache_maps_eq s k).2]
  exact invalidate_step_synced h k k'

theorem foldl_remove_cache_synced (K : List String) {s : CacheState}
    (h : SyncedMaps s) :
    SyncedMaps (K.foldl (fun t k => remove_cache t k) s) := by
  intro k'
  rw [(foldl_remove_cache_maps K s).1, (foldl_remove_cache_maps K s).2]
  exact foldl_invalidate_step_synced K h k'

theorem createNew_synced (env : Except Unit Handle) (s : CacheState)
    (key : String) (c : List String) (m : CacheMetadata)
    (h : SyncedMaps s) : SyncedMaps (createNew env s key c m).1 := by
  cases env with
  | error e => rw [createNew_err]; exact h
  | ok hd =>
    rw [createNew_ok]
    intro k'
    show (alookup (dinsert key hd s.active_caches) k').isSome =
      (alookup (dinsert key m s.cache_metadata) k').isSome
    rw [alookup_dinsert, alookup_dinsert]
    by_cases hk : key = k' <;> simp [hk, h k']

theorem getOrCreateWith_synced (env : Except Unit Handle) (s : CacheState)
    (key : String) (c : List String) (m : CacheMetadata)
    (h : SyncedMaps s) : SyncedMaps (getOrCreateWith env s key c m).1 := by
  cases h0 : alookup s.active_caches key with
  | none =>
    rw [getOrCreateWith_none env c m h0]
    exact createNew_synced _ _ _ _ _ h
  | some ex =>
    by_cases hv : ex.valid
    · rw [getOrCreateWith_hit env c m h0 hv]
      exact h
    · rw [getOrCreateWith_stale env c m h0 (by simpa using hv)]
      exact createNew_synced _ _ _ _ _ (remove_cache_synced h key)

theorem create_assessment_cache_synced (env : Except Unit Handle)
    (s : CacheState) (fw : String) (bp : BusinessProfile)
    (actx : Option String) (h : SyncedMaps s) :
    SyncedMaps (create_assessment_cache env s fw bp actx).1 := by
  by_cases hmu : s.use_mock
  · unfold create_assessment_cache
    rw [if_pos hmu]
    exact h
  · unfold create_assessment_cache
    rw [if_neg hmu]
    exact getOrCreateWith_synced _ _ _ _ _ h

theorem create_business_profile_cache_synced (env : Except Unit Handle)
    (s : CacheState) (bp : BusinessProfile) (h : SyncedMaps s) :
    SyncedMaps (create_business_profile_cache env s bp).1 :=
  getOrCreateWith_synced _ _ _ _ _ h

theorem create_framework_cache_synced (env : Except Unit Handle)
    (s : CacheState) (fw : String) (ind : Option String)
    (h : SyncedMaps s) :
    SyncedMaps (create_framework_cache env s fw ind).1 :=
  getOrCreateWith_synced _ _ _ _ _ h

theorem get_cached_content_synced (s : CacheState)
    (ct : CacheContentType) (ident : String) (sec : Option String)
    (h : SyncedMaps s) : SyncedMaps (get_cached_content s ct ident sec).1 := by
  unfold get_cached_content
  dsimp only
  cases h0 : alookup s.active_caches (generate_cache_key ct ident sec) with
  | none => exact h
  | some ex =>
    show SyncedMaps (if ex.valid = true then (recordHit s, some ex)
      else (recordMiss (remove_cache s (generate_cache_key ct ident sec)),
        none)).1
    by_cases hv : ex.valid
    · rw [if_pos hv]
      exact h
    · rw [if_neg hv]
      exact remove_cache_synced h _

theorem refresh_cache_synced (s : CacheState) (key : String)
    (h : SyncedMaps s) : SyncedMaps (refresh_cache s key).1 := by
  unfold refresh_cache
  cases h0 : alookup s.cache_metadata key with
  | none => exact h
  | some md =>
    show SyncedMaps (if md.type ∈
        [CacheContentType.assessment_context.value,
         CacheContentType.business_profile.value,
         CacheContentType.framework_context.value,
         CacheContentType.industry_regulations.value,
         CacheContentType.system_instructions.value] then
        ({ s with metrics := { s.metrics with
            cache_refreshes := s.metrics.cache_refreshes + 1 } }, true)
      else (s, false)).1
    split
    · exact h
    · exact h

theorem cleanup_expired_caches_synced (s : CacheState) (h : SyncedMaps s) :
    SyncedMaps (cleanup_expired_caches s).1 :=
  foldl_remove_cache_synced _ h

theorem record_cache_performance_synced (s : CacheState) (key : String)
    (rt : Nat) (hitb : Bool) (h : SyncedMaps s) :
    SyncedMaps (record_cache_performance s key rt hitb) := by
  unfold record_cache_performance
  split
  · exact h
  · exact h

theorem add_to_warming_queue_synced (s : CacheState)
    (ct : CacheContentType) (wc : WarmContext) (p : Int)
    (h : SyncedMaps s) : SyncedMaps (add_to_warming_queue s ct wc p) := by
  unfold add_to_warming_queue
  split
  · exact h
  · exact h

theorem trigger_intelligent_invalidation_synced (s : CacheState)
    (tt : String) (ctx : TriggerContext) (h : SyncedMaps s) :
    SyncedMaps (trigger_intelligent_invalidation s tt ctx) := by
  unfold trigger_intelligent_invalidation
  split
  · exact h
  · repeat' split
    all_goals simp only [invalidate_business_profile_caches,
      invalidate_framework_caches, invalidate_assessment_caches,
      invalidate_regulatory_caches, invalidate_cache_keys_eq_foldl]
    all_goals first
      | exact foldl_invalidate_step_synced _ h
      | exact h

theorem warm_cache_entry_synced (env : Except Unit Handle) (s : CacheState)
    (entry : WarmingEntry) (h : SyncedMaps s) {s' : CacheState}
    (hw : warm_cache_entry env s entry = .ok s') : SyncedMaps s' := by
  unfold warm_cache_entry at hw
  dsimp only at hw
  split at hw
  · split at hw
    all_goals cases hw
    exact create_assessment_cache_synced _ _ _ _ _ h
  · split at hw
    all_goals cases hw
    exact create_business_profile_cache_synced _ _ _ h
  · split at hw
    all_goals cases hw
    exact create_framework_cache_synced _ _ _ _ h
  all_goals cases hw
  all_goals exact h

theorem process_batch_synced (envs : Nat → Except Unit Handle)
    (batch : List WarmingEntry) :
    ∀ (i : Nat) (s : CacheState), SyncedMaps s →
      SyncedMaps (process_batch envs i s batch).1 := by
  induction batch with
  | nil => intro i s h; exact h
  | cons entry rest ih =>
    intro i s h
    refine ih (i + 1) _ ?_
    by_cases hw : should_warm_cache s entry
    · rw [if_pos hw]
      cases hwe : warm_cache_entry (envs i) s entry with
      | ok s2 =>
        exact warm_cache_entry_synced _ _ _ h hwe
      | error e =>
        show SyncedMaps (if entry.attempts + 1 ≥ 3 then
            ((s, 0, []) : CacheState × Nat × List WarmingEntry)
          else (s, 0, [{ entry with attempts := entry.attempts + 1 }])).1
        split
        · exact h
        · exact h
    · rw [if_neg hw]
      exact h

theorem process_warming_queue_synced (envs : Nat → Except Unit Handle)
    (s : CacheState) (n : Nat) (h : SyncedMaps s) :
    SyncedMaps (process_warming_queue envs s n).1 := by
  unfold process_warming_queue
  split
  · exact h
  · exact process_batch_synced envs _ 0 s h

/-- C10: every public operation of the manager — the three creates, the
lookup, refresh, cleanup, the invalidation trigger (all rules), warming
enqueue and queue processing, and performance recording — preserves the
invariant that the key set of the live handle map equals the key set of
the metadata map. -/
theorem maps_sync_invariant :
    (∀ (env : Except Unit Handle) (s : CacheState) (fw : String)
        (bp : BusinessProfile) (actx : Option String), SyncedMaps s →
      SyncedMaps (create_assessment_cache env s fw bp actx).1) ∧
    (∀ (env : Except Unit Handle) (s : CacheState) (bp : BusinessProfile),
      SyncedMaps s → SyncedMaps (create_business_profile_cache env s bp).1) ∧
    (∀ (env : Except Unit Handle) (s : CacheState) (fw : String)
        (ind : Option String), SyncedMaps s →
      SyncedMaps (create_framework_cache env s fw ind).1) ∧
    (∀ (s : CacheState) (ct : CacheContentType) (ident : String)
        (sec : Option String), SyncedMaps s →
      SyncedMaps (get_cached_content s ct ident sec).1) ∧
    (∀ (s : CacheState) (key : String), SyncedMaps s →
      SyncedMaps (refresh_cache s key).1) ∧
    (∀ s : CacheState, SyncedMaps s →
      SyncedMaps (cleanup_expired_caches s).1) ∧
    (∀ (s : CacheState) (tt : String) (ctx : TriggerContext),
      SyncedMaps s →
      SyncedMaps (trigger_intelligent_invalidation s tt ctx)) ∧
    (∀ (s : CacheState) (ct : CacheContentType) (wc : WarmContext)
        (p : Int), SyncedMaps s →
      SyncedMaps (add_to_warming_queue s ct wc p)) ∧
    (∀ (envs : Nat → Except Unit Handle) (s : CacheState) (n : Nat),
      SyncedMaps s → SyncedMaps (process_warming_queue envs s n).1) ∧
    (∀ (s : CacheState) (key : String) (rt : Nat) (hitb : Bool),
      SyncedMaps s → SyncedMaps (record_cache_performance s key rt hitb)) :=
  ⟨fun env s fw bp actx h => create_assessment_cache_synced env s fw bp actx h,
   fun env s bp h => create_business_profile_cache_synced env s bp h,
   fun env s fw ind h => create_framework_cache_synced env s fw ind h,
   fun s ct ident sec h => get_cached_content_synced s ct ident sec h,
   fun s key h => refresh_cache_synced s key h,
   fun s h => cleanup_expired_caches_synced s h,
   fun s tt ctx h => trigger_intelligent_invalidation_synced s tt ctx h,
   fun s ct wc p h => add_to_warming_queue_synced s ct wc p h,
   fun envs s n h => process_warming_queue_synced envs s n h,
   fun s key rt hitb h => record_cache_performance_synced s key rt hitb h⟩

/-- C10 witness: the invariant holds on the fresh state and is carried
through a concrete create. -/
theorem maps_sync_invariant_witness :
    SyncedMaps
      (create_assessment_cache (Except.ok hGood) initState "GDPR" bpDemo
        none).1 :=
  maps_sync_invariant.1 (Except.ok hGood) initState "GDPR" bpDemo none
    (fun _ => rfl)

end CachedContent
